import Mathlib

/-!
Verification of the natural-language-to-SQL translation layer of the
evidence-data-viz application (src/app.js, class DataExplorer).

The JavaScript code is shallowly embedded: strings are Lean `String`s,
JavaScript's `String.prototype.includes` becomes `strIncludes`,
`toLowerCase` becomes `toLowerCase` (ASCII case mapping, which is all the
matcher ever relies on), arrays become `List`s, `null`/`undefined` results
become `Option`, and JavaScript truthiness of the resolver results (where
the empty string and the number 0 are falsy) is made explicit via `truthy`
and the 0-guards.  Each definition mirrors one function of src/app.js and
keeps its name.
-/

/-- Embedding of JavaScript `s.includes(pat)`: `pat` occurs as a contiguous
substring of `s`. -/
def strIncludes (s pat : String) : Bool := decide (pat.data <:+: s.data)

/-- Embedding of JavaScript `s.toLowerCase()` (ASCII case mapping; the
source only ever matches ASCII keywords against it). -/
def toLowerCase (s : String) : String := String.mk (s.data.map Char.toLower)

/-- Numeric value of a run of decimal digits, as JavaScript `parseInt`
computes it on a digit-only string. -/
def digitsVal (ds : List Char) : Nat := ds.foldl (fun n c => n * 10 + (c.toNat - 48)) 0

/-- First maximal run of decimal digits in the text (the match of the
regular expression `\d+`). -/
def firstDigitRun : List Char → Option (List Char)
  | [] => none
  | c :: rest => if c.isDigit then some (c :: rest.takeWhile Char.isDigit) else firstDigitRun rest

/-- Embedding of `extractNumber` (src/app.js:493): `text.match(/\d+/)`,
parsed with `parseInt`; `none` when the text has no digit. -/
def extractNumber (text : String) : Option Nat := (firstDigitRun text.data).map digitsVal

/-- A single- or double-quote character (the character class `["']` of the
regular expression in `extractQuotedValue`). -/
def quoteChar (c : Char) : Bool := c.toNat == 34 || c.toNat == 39

/-- Leftmost match of the regular expression `["']([^"']+)["']`, returning
the capture group: at each successive start position, an opening quote
character, a nonempty run of non-quote characters, then any closing quote
character (the two quotes need not be the same character). -/
def quotedScan : List Char → Option (List Char)
  | [] => none
  | c :: rest =>
    if quoteChar c then
      let run := rest.takeWhile (fun d => !quoteChar d)
      if run.isEmpty then quotedScan rest
      else if (rest.dropWhile (fun d => !quoteChar d)).isEmpty then quotedScan rest
      else some run
    else quotedScan rest

/-- Embedding of `extractQuotedValue` (src/app.js:430):
`text.match(/["']([^"']+)["']/)` and return the capture, else `null`. -/
def extractQuotedValue (text : String) : Option String := (quotedScan text.data).map String.mk

/-- Modelled from the claim's words (not from the source): the first
substring of the text enclosed in MATCHING single or double quotes, i.e.
the closing quote must be the same character as the opening one; `none`
when no such substring exists.  Used to compare the claimed behaviour of
`extractQuotedValue` with its actual behaviour. -/
def matchingQuotedScan : List Char → Option (List Char)
  | [] => none
  | c :: rest =>
    if quoteChar c then
      let run := rest.takeWhile (fun d => !(d == c))
      if run.isEmpty then matchingQuotedScan rest
      else if (rest.dropWhile (fun d => !(d == c))).isEmpty then matchingQuotedScan rest
      else some run
    else matchingQuotedScan rest

/-- String-level wrapper of `matchingQuotedScan` (claim-side definition). -/
def extractQuotedValueMatching (text : String) : Option String :=
  (matchingQuotedScan text.data).map String.mk

/-- There is a quoted value at position `i` of `l`: a quote character,
then the nonempty all-non-quote run `v`, then a closing quote character
(possibly a different quote character).  The specification predicate used
to characterise `extractQuotedValue`. -/
def QuotedAt (l : List Char) (i : Nat) (v : List Char) : Prop :=
  v ≠ [] ∧ (∀ c ∈ v, quoteChar c = false) ∧
    ∃ q1 q2 b, quoteChar q1 = true ∧ quoteChar q2 = true ∧ l.drop i = q1 :: (v ++ q2 :: b)

/-- JavaScript truthiness filter applied by the call sites
`if (column) { ... }` of the resolvers: `undefined`/`null` and the empty
string are falsy. -/
def truthy : Option String → Option String
  | some s => if s = "" then none else some s
  | none => none

/-- JavaScript `extractNumber(q) || 10` (src/app.js:301): `null` and the
number 0 are falsy, so both fall back to the default. -/
def jsNumOr (o : Option Nat) (d : Nat) : Nat :=
  match o with
  | some n => if n = 0 then d else n
  | none => d

/-- Condition of the synonym-heuristic loop of `findColumnInQuestion`
(src/app.js:449-476), for the lower-cased question `q` and the lower-cased
column name `colLower`; the five if-statements of the loop body, joined by
disjunction (each returns the same column). -/
def synonymCondition (q colLower : String) : Bool :=
  ((strIncludes q "name" || strIncludes q "title") &&
    (strIncludes colLower "name" || strIncludes colLower "title" ||
      strIncludes colLower "software")) ||
  ((strIncludes q "category" || strIncludes q "type") &&
    (strIncludes colLower "category" || strIncludes colLower "type" ||
      strIncludes colLower "kind")) ||
  ((strIncludes q "install" || strIncludes q "software") &&
    (strIncludes colLower "install" || strIncludes colLower "software" ||
      strIncludes colLower "app" || strIncludes colLower "program")) ||
  (strIncludes q "status" && strIncludes colLower "status") ||
  ((strIncludes q "date" || strIncludes q "time") &&
    (strIncludes colLower "date" || strIncludes colLower "time" ||
      strIncludes colLower "created"))

/-- Condition of the categorical-fallback loop of `findColumnInQuestion`
(src/app.js:479-488): the lower-cased column name contains one of the
categorical keywords. -/
def categoricalCondition (colLower : String) : Bool :=
  strIncludes colLower "name" || strIncludes colLower "title" ||
  strIncludes colLower "software" || strIncludes colLower "app" ||
  strIncludes colLower "program" || strIncludes colLower "category" ||
  strIncludes colLower "type" || strIncludes colLower "status"

/-- The exact-substring step shared by both resolvers: first schema column
whose lower-cased name occurs in the (lower-cased) question. -/
def exactMatchStep (columns : List String) (q : String) : Option String :=
  columns.find? (fun col => strIncludes q (toLowerCase col))

/-- Embedding of `findColumnInQuestion` (src/app.js:435-491): exact
substring match in schema order, then the synonym heuristics, then the
categorical fallback, then the first column; `none` only for an empty
schema (JavaScript `columns[0]` is `undefined` there). -/
def findColumnInQuestion (columns : List String) (question : String) : Option String :=
  let q := toLowerCase question
  match exactMatchStep columns q with
  | some col => some col
  | none =>
    match columns.find? (fun col => synonymCondition q (toLowerCase col)) with
    | some col => some col
    | none =>
      match columns.find? (fun col => categoricalCondition (toLowerCase col)) with
      | some col => some col
      | none => columns.head?

/-- Embedding of `findSecondColumnInQuestion` (src/app.js:420-428): the
schema minus the excluded column, scanned with the exact-substring test
only; `null` when nothing matches. -/
def findSecondColumnInQuestion (schema : List String) (question : String)
    (excludeColumn : String) : Option String :=
  (schema.filter (fun col => col ≠ excludeColumn)).find?
    (fun col => strIncludes (toLowerCase question) (toLowerCase col))

/-- Modelled from the claim's words (not from the source): the algorithm
of `findColumnInQuestion` restricted to the schema with the excluded
column removed — exact substring match, then the synonym heuristics —
with no categorical or first-column fallback.  Used to compare the claimed
behaviour of `findSecondColumnInQuestion` with its actual behaviour. -/
def findSecondColumnSpec (schema : List String) (question : String)
    (excludeColumn : String) : Option String :=
  let cols := schema.filter (fun col => col ≠ excludeColumn)
  let q := toLowerCase question
  match exactMatchStep cols q with
  | some col => some col
  | none => cols.find? (fun col => synonymCondition q (toLowerCase col))

/-- The fixed table name (src/app.js:257). -/
def tableName : String := "user_data"

/-- Grouped-count statement emitted by the chart, show-chart, show-by,
count-group and by-catch-all patterns (src/app.js:268 and identical
templates). -/
def groupedCountSQL (column : String) : String :=
  "SELECT \"" ++ column ++ "\", COUNT(*) as count FROM " ++ tableName ++
    " GROUP BY \"" ++ column ++ "\" ORDER BY count DESC"

/-- `SELECT * FROM user_data LIMIT n` (src/app.js:302). -/
def limitSQL (n : Nat) : String := "SELECT * FROM " ++ tableName ++ " LIMIT " ++ toString n

/-- `SELECT * FROM user_data` (src/app.js:305). -/
def selectAllSQL : String := "SELECT * FROM " ++ tableName

/-- `SELECT COUNT(*) as total_rows FROM user_data` (src/app.js:317). -/
def totalRowsSQL : String := "SELECT COUNT(*) as total_rows FROM " ++ tableName

/-- Ungrouped average statement (src/app.js:330). -/
def avgSQL (column : String) : String :=
  "SELECT AVG(\"" ++ column ++ "\") as average_" ++ column ++ " FROM " ++ tableName

/-- Grouped average statement (src/app.js:327). -/
def avgGroupSQL (groupCol column : String) : String :=
  "SELECT \"" ++ groupCol ++ "\", AVG(\"" ++ column ++ "\") as avg_" ++ column ++
    " FROM " ++ tableName ++ " GROUP BY \"" ++ groupCol ++ "\" ORDER BY avg_" ++
    column ++ " DESC"

/-- Ungrouped sum statement (src/app.js:344). -/
def sumSQL (column : String) : String :=
  "SELECT SUM(\"" ++ column ++ "\") as total_" ++ column ++ " FROM " ++ tableName

/-- Grouped sum statement (src/app.js:341). -/
def sumGroupSQL (groupCol column : String) : String :=
  "SELECT \"" ++ groupCol ++ "\", SUM(\"" ++ column ++ "\") as total_" ++ column ++
    " FROM " ++ tableName ++ " GROUP BY \"" ++ groupCol ++ "\" ORDER BY total_" ++
    column ++ " DESC"

/-- Maximum statement (src/app.js:352). -/
def maxSQL (column : String) : String :=
  "SELECT * FROM " ++ tableName ++ " ORDER BY \"" ++ column ++ "\" DESC LIMIT 1"

/-- Minimum statement (src/app.js:359). -/
def minSQL (column : String) : String :=
  "SELECT * FROM " ++ tableName ++ " ORDER BY \"" ++ column ++ "\" ASC LIMIT 1"

/-- Distinct statement (src/app.js:367). -/
def distinctSQL (column : String) : String :=
  "SELECT DISTINCT \"" ++ column ++ "\" FROM " ++ tableName ++ " ORDER BY \"" ++
    column ++ "\""

/-- Greater-than comparison statement (src/app.js:376). -/
def greaterSQL (column : String) (value : Nat) : String :=
  "SELECT * FROM " ++ tableName ++ " WHERE \"" ++ column ++ "\" > " ++ toString value ++
    " ORDER BY \"" ++ column ++ "\" DESC"

/-- Less-than comparison statement (src/app.js:384). -/
def lessSQL (column : String) (value : Nat) : String :=
  "SELECT * FROM " ++ tableName ++ " WHERE \"" ++ column ++ "\" < " ++ toString value ++
    " ORDER BY \"" ++ column ++ "\" ASC"

/-- Sort statement (src/app.js:393); `dir` is `"DESC"` or `"ASC"`. -/
def sortSQL (column dir : String) : String :=
  "SELECT * FROM " ++ tableName ++ " ORDER BY \"" ++ column ++ "\" " ++ dir

/-- LIKE-search statement (src/app.js:403). -/
def searchSQL (column value : String) : String :=
  "SELECT * FROM " ++ tableName ++ " WHERE \"" ++ column ++ "\" LIKE " ++
    "'%" ++ value ++ "%'"

/-- Default statement (src/app.js:417). -/
def defaultSQL : String := "SELECT * FROM " ++ tableName ++ " LIMIT 20"

/-- Chart pattern (src/app.js:265-270); `q` is the lower-cased question. -/
def patChart (schema : List String) (q : String) : Option String :=
  if strIncludes q "chart" || strIncludes q "graph" || strIncludes q "plot" then
    (truthy (findColumnInQuestion schema q)).map groupedCountSQL
  else none

/-- First inner branch of the show pattern (src/app.js:277-286): a chart
request inside a show/display/view question. -/
def patShowChart (schema : List String) (q : String) : Option String :=
  if strIncludes q "chart" || strIncludes q "graph" || strIncludes q "bar" ||
      strIncludes q "plot" then
    (truthy (findColumnInQuestion schema q)).map groupedCountSQL
  else none

/-- Second inner branch of the show pattern (src/app.js:289-298): a
`" by "` grouping inside a show/display/view question. -/
def patShowBy (schema : List String) (q : String) : Option String :=
  if strIncludes q " by " then
    (truthy (findColumnInQuestion schema q)).map groupedCountSQL
  else none

/-- Third inner branch of the show pattern (src/app.js:300-303): first/top
rows, with `extractNumber(q) || 10`. -/
def patShowTop (q : String) : Option String :=
  if strIncludes q "first" || strIncludes q "top" then
    some (limitSQL (jsNumOr (extractNumber q) 10))
  else none

/-- Fourth inner branch of the show pattern (src/app.js:304-306). -/
def patShowAll (q : String) : Option String :=
  if strIncludes q "all" then some selectAllSQL else none

/-- Show/display/view pattern with its four inner branches
(src/app.js:273-307); `q` is the lower-cased question.  An inner branch
that does not return falls through to the next, and out of the block when
none returns. -/
def patShow (schema : List String) (q : String) : Option String :=
  if strIncludes q "show" || strIncludes q "display" || strIncludes q "view" then
    patShowChart schema q <|> patShowBy schema q <|> patShowTop q <|> patShowAll q
  else none

/-- Count pattern (src/app.js:310-318): grouped when `"group"`/`"by"`
occurs and a truthy column resolves, else the total-rows count; `q` is the
lower-cased question. -/
def patCount (schema : List String) (q : String) : Option String :=
  if strIncludes q "count" then
    if strIncludes q "group" || strIncludes q "by" then
      match truthy (findColumnInQuestion schema q) with
      | some c => some (groupedCountSQL c)
      | none => some totalRowsSQL
    else some totalRowsSQL
  else none

/-- Average pattern (src/app.js:321-332); `q` is the lower-cased question. -/
def patAverage (schema : List String) (q : String) : Option String :=
  if strIncludes q "average" || strIncludes q "avg" || strIncludes q "mean" then
    match truthy (findColumnInQuestion schema q) with
    | some column =>
      if strIncludes q "group" || strIncludes q "by" then
        match truthy (findSecondColumnInQuestion schema q column) with
        | some g => some (avgGroupSQL g column)
        | none => some (avgSQL column)
      else some (avgSQL column)
    | none => none
  else none

/-- Sum pattern (src/app.js:335-346); `q` is the lower-cased question. -/
def patSum (schema : List String) (q : String) : Option String :=
  if strIncludes q "sum" || strIncludes q "total" then
    match truthy (findColumnInQuestion schema q) with
    | some column =>
      if strIncludes q "group" || strIncludes q "by" then
        match truthy (findSecondColumnInQuestion schema q column) with
        | some g => some (sumGroupSQL g column)
        | none => some (sumSQL column)
      else some (sumSQL column)
    | none => none
  else none

/-- Maximum pattern (src/app.js:349-354); `q` is the lower-cased question. -/
def patMax (schema : List String) (q : String) : Option String :=
  if strIncludes q "maximum" || strIncludes q "max" || strIncludes q "highest" then
    (truthy (findColumnInQuestion schema q)).map maxSQL
  else none

/-- Minimum pattern (src/app.js:356-361); `q` is the lower-cased question. -/
def patMin (schema : List String) (q : String) : Option String :=
  if strIncludes q "minimum" || strIncludes q "min" || strIncludes q "lowest" then
    (truthy (findColumnInQuestion schema q)).map minSQL
  else none

/-- Distinct pattern (src/app.js:364-369); `q` is the lower-cased question. -/
def patDistinct (schema : List String) (q : String) : Option String :=
  if strIncludes q "unique" || strIncludes q "distinct" then
    (truthy (findColumnInQuestion schema q)).map distinctSQL
  else none

/-- Greater-than pattern (src/app.js:372-378): needs a truthy column and a
truthy extracted number (0 is falsy); `q` is the lower-cased question. -/
def patGreater (schema : List String) (q : String) : Option String :=
  if strIncludes q "greater than" || strIncludes q ">" || strIncludes q "more than" then
    match truthy (findColumnInQuestion schema q), extractNumber q with
    | some c, some v => if v = 0 then none else some (greaterSQL c v)
    | _, _ => none
  else none

/-- Less-than pattern (src/app.js:380-386); `q` is the lower-cased question. -/
def patLess (schema : List String) (q : String) : Option String :=
  if strIncludes q "less than" || strIncludes q "<" || strIncludes q "below" then
    match truthy (findColumnInQuestion schema q), extractNumber q with
    | some c, some v => if v = 0 then none else some (lessSQL c v)
    | _, _ => none
  else none

/-- Sort pattern (src/app.js:389-395); `q` is the lower-cased question. -/
def patSort (schema : List String) (q : String) : Option String :=
  if strIncludes q "sort" || strIncludes q "order" then
    (truthy (findColumnInQuestion schema q)).map (fun c =>
      sortSQL c (if strIncludes q "desc" || strIncludes q "descending" ||
        strIncludes q "highest" then "DESC" else "ASC"))
  else none

/-- Search pattern (src/app.js:398-406): needs a truthy column and a
truthy quoted value; `q` is the lower-cased question. -/
def patSearch (schema : List String) (q : String) : Option String :=
  if strIncludes q "find" || strIncludes q "search" || strIncludes q "where" then
    match truthy (findColumnInQuestion schema q) with
    | some c =>
      match extractQuotedValue q with
      | some v => if v = "" then none else some (searchSQL c v)
      | none => none
    | none => none
  else none

/-- By-catch-all pattern (src/app.js:409-414); `q` is the lower-cased
question. -/
def patBy (schema : List String) (q : String) : Option String :=
  if strIncludes q " by " then
    (truthy (findColumnInQuestion schema q)).map groupedCountSQL
  else none

/-- Embedding of `generateSQLWithPatterns` (src/app.js:255-418): the fixed
pattern list evaluated first-match-wins over the lower-cased question,
with the default statement when nothing fires. -/
def generateSQLWithPatterns (schema : List String) (question : String) : String :=
  let q := toLowerCase question
  (patChart schema q <|> patShow schema q <|> patCount schema q <|>
    patAverage schema q <|> patSum schema q <|> patMax schema q <|>
    patMin schema q <|> patDistinct schema q <|> patGreater schema q <|>
    patLess schema q <|> patSort schema q <|> patSearch schema q <|>
    patBy schema q).getD defaultSQL

/-- Every trigger keyword of every pattern of `generateSQLWithPatterns`
(the union of the `q.includes(...)` guards of the pattern chain). -/
def triggerKeywords : List String :=
  ["chart", "graph", "plot", "show", "display", "view", "count",
   "average", "avg", "mean", "sum", "total", "maximum", "max", "highest",
   "minimum", "min", "lowest", "unique", "distinct",
   "greater than", ">", "more than", "less than", "<", "below",
   "sort", "order", "find", "search", "where", " by "]

/-- Some pattern's trigger keyword occurs in the lower-cased question;
when this is false, no pattern of `generateSQLWithPatterns` fires. -/
def anyTriggerKeyword (q : String) : Bool :=
  triggerKeywords.any (fun kw => strIncludes q kw)

/-- The complete set of statement shapes `generateSQLWithPatterns` can
emit.  Every schema column referenced by a shape is a member of the schema,
is nonempty, and appears wrapped in double quotes at every column slot of
the template; the only table any template names is the constant
`user_data`; the aggregate aliases `average_<col>`, `avg_<col>` and
`total_<col>` also carry the column name. -/
def ShapeInv (S : List String) (out : String) : Prop :=
  (∃ c, c ∈ S ∧ c ≠ "" ∧ out = groupedCountSQL c) ∨
  (∃ n, out = limitSQL n) ∨
  out = selectAllSQL ∨
  out = totalRowsSQL ∨
  (∃ c, c ∈ S ∧ c ≠ "" ∧ out = avgSQL c) ∨
  (∃ c g, c ∈ S ∧ c ≠ "" ∧ g ∈ S ∧ g ≠ "" ∧ g ≠ c ∧ out = avgGroupSQL g c) ∨
  (∃ c, c ∈ S ∧ c ≠ "" ∧ out = sumSQL c) ∨
  (∃ c g, c ∈ S ∧ c ≠ "" ∧ g ∈ S ∧ g ≠ "" ∧ g ≠ c ∧ out = sumGroupSQL g c) ∨
  (∃ c, c ∈ S ∧ c ≠ "" ∧ out = maxSQL c) ∨
  (∃ c, c ∈ S ∧ c ≠ "" ∧ out = minSQL c) ∨
  (∃ c, c ∈ S ∧ c ≠ "" ∧ out = distinctSQL c) ∨
  (∃ c n, c ∈ S ∧ c ≠ "" ∧ n ≠ 0 ∧ out = greaterSQL c n) ∨
  (∃ c n, c ∈ S ∧ c ≠ "" ∧ n ≠ 0 ∧ out = lessSQL c n) ∨
  (∃ c d, c ∈ S ∧ c ≠ "" ∧ (d = "ASC" ∨ d = "DESC") ∧ out = sortSQL c d) ∨
  (∃ c v, c ∈ S ∧ c ≠ "" ∧ v ≠ "" ∧ out = searchSQL c v) ∨
  out = defaultSQL

/-- A JavaScript value as it appears in a result row produced by the query
executor: SQL NULL, a number, or a string. -/
inductive JValue where
  | vnull : JValue
  | vnum : Int → JValue
  | vstr : String → JValue
deriving DecidableEq

/-- A result row: an object mapping column names to values (an ordered
association list, as `Object.keys`/property access see it). -/
def Row := List (String × JValue)

/-- JavaScript property access `row[col]`: `none` models `undefined`. -/
def rowGet (row : Row) (col : String) : Option JValue :=
  (row.find? (fun p => p.1 == col)).map (fun p => p.2)

/-- A character of JavaScript whitespace as trimmed by Number coercion
(space, tab, newline, carriage return). -/
def wsChar (c : Char) : Bool := c.toNat == 32 || c.toNat == 9 || c.toNat == 10 || c.toNat == 13

/-- Both-ends whitespace trim. -/
def trimWs (l : List Char) : List Char :=
  ((l.dropWhile wsChar).reverse.dropWhile wsChar).reverse

/-- The characters form a decimal numeral: digits with an optional single
decimal point (digits on at least one side). -/
def decimalDigitsOk (l : List Char) : Bool :=
  let ip := l.takeWhile Char.isDigit
  match l.drop ip.length with
  | [] => !ip.isEmpty
  | c :: frac => c.toNat == 46 && (!ip.isEmpty || !frac.isEmpty) && frac.all Char.isDigit

/-- The string coerces to a number under JavaScript `Number(s)` as
`determineChartType`'s `isNaN` tests exercise it: a blank string coerces
to 0, otherwise an optionally signed decimal numeral is required
(exponent, hexadecimal and Infinity forms are not modelled; no value of
the claims uses them). -/
def isNumericStringJS (s : String) : Bool :=
  let t := trimWs s.data
  t.isEmpty ||
    (match t with
     | c :: rest => if c.toNat == 43 || c.toNat == 45 then decimalDigitsOk rest else decimalDigitsOk t
     | [] => true)

/-- JavaScript `isNaN(x)` on a possibly missing row value: `undefined` is
NaN, `null` coerces to 0, numbers are numbers, and a string is NaN exactly
when it is not a numeral. -/
def jsIsNaN : Option JValue → Bool
  | none => true
  | some JValue.vnull => false
  | some (JValue.vnum _) => false
  | some (JValue.vstr s) => !isNumericStringJS s

/-- JavaScript `x !== null` is false exactly here. -/
def isJsNull : Option JValue → Bool
  | some JValue.vnull => true
  | _ => false

/-- The chart specification emitted by `determineChartType`. -/
structure ChartConfig where
  type : String
  labelColumn : String
  valueColumn : String
deriving DecidableEq

/-- Embedding of `determineChartType` (src/app.js:682-709): `none` for
fewer than 2 rows; a bar-chart specification over the first and second
column when some column holds a non-null non-numeric value, some column
holds a non-null numeric value, and there are exactly 2 columns; `none`
otherwise. -/
def determineChartType (results : List Row) (columns : List String) : Option ChartConfig :=
  if results.length < 2 then none
  else
    let hasStringColumn := columns.any (fun col =>
      results.any (fun row => jsIsNaN (rowGet row col) && !isJsNull (rowGet row col)))
    let hasNumericColumn := columns.any (fun col =>
      results.any (fun row => !jsIsNaN (rowGet row col) && !isJsNull (rowGet row col)))
    if hasStringColumn && hasNumericColumn then
      match columns with
      | [c0, c1] => some { type := "bar", labelColumn := c0, valueColumn := c1 }
      | _ => none
    else none

/-- Column `col` holds, in some row, a non-null value that `isNaN` flags
(a non-numeric value in the sense the chart decision tests). -/
def ColumnHasNonNumeric (results : List Row) (col : String) : Prop :=
  ∃ row ∈ results, jsIsNaN (rowGet row col) = true ∧ isJsNull (rowGet row col) = false

/-- Column `col` holds, in some row, a non-null numeric value. -/
def ColumnHasNumeric (results : List Row) (col : String) : Prop :=
  ∃ row ∈ results, jsIsNaN (rowGet row col) = false ∧ isJsNull (rowGet row col) = false

/-- Modelled from the claim's words (not from the source): chart
eligibility as claimed — at least 2 rows, exactly 2 columns, and one
column has a non-numeric value while THE OTHER column has a numeric
value. -/
def ChartClaimSpec (results : List Row) (columns : List String) : Prop :=
  2 ≤ results.length ∧
    ∃ c0 c1, columns = [c0, c1] ∧
      ((ColumnHasNonNumeric results c0 ∧ ColumnHasNumeric results c1) ∨
       (ColumnHasNonNumeric results c1 ∧ ColumnHasNumeric results c0))

/-- The schema-registry entry `this.currentData` (src/app.js:176-180). -/
structure CurrentData where
  tableName : String
  schema : List String
  rowCount : Nat
deriving DecidableEq

/-- A created table of the embedded store: its name, column list and
inserted row values. -/
structure Table where
  name : String
  columns : List String
  rows : List (List JValue)
deriving DecidableEq

/-- The database handle `this.db`: the tables created in it. -/
structure Database where
  tables : List Table
deriving DecidableEq

/-- The mutable fields of the application that `createTableFromData`
touches. -/
structure AppState where
  currentData : Option CurrentData
  db : Option Database
deriving DecidableEq

/-- JavaScript falsiness of a row value (`row[col] || null`): `null`, 0
and the empty string are falsy. -/
def jsFalsy : JValue → Bool
  | JValue.vnull => true
  | JValue.vnum n => n == 0
  | JValue.vstr s => s.isEmpty

/-- The inserted cell value `row[col] || null`: a missing or falsy value
becomes `null`. -/
def jsOrNull (v : Option JValue) : JValue :=
  match v with
  | some w => if jsFalsy w then JValue.vnull else w
  | none => JValue.vnull

/-- Embedding of `createTableFromData` (src/app.js:165-195) as a state
transition: the guard `!data || data.length === 0` throws
"No data found in file" before any field is assigned, so the state is
returned unchanged with the error message; otherwise a fresh database
holding the one table `user_data` replaces `this.db` and the schema
registry `this.currentData` is replaced wholesale. -/
def createTableFromData (st : AppState) (data : Option (List Row)) :
    AppState × Option String :=
  match data with
  | none => (st, some "No data found in file")
  | some rows =>
    match rows with
    | [] => (st, some "No data found in file")
    | firstRow :: _ =>
      let columns := firstRow.map (fun p => p.1)
      let tableRows := rows.map (fun row => columns.map (fun col => jsOrNull (rowGet row col)))
      let table : Table := { name := tableName, columns := columns, rows := tableRows }
      let registry : CurrentData :=
        { tableName := tableName, schema := columns, rowCount := rows.length }
      ({ currentData := some registry, db := some { tables := [table] } }, none)

/-! ### General helper lemmas -/

theorem strIncludes_iff (s pat : String) : strIncludes s pat = true ↔ pat.data <:+: s.data := by
  simp [strIncludes]

theorem head?_mem {α : Type} {l : List α} {a : α} (h : l.head? = some a) : a ∈ l := by
  cases l with
  | nil => simp at h
  | cons x xs =>
    simp only [List.head?, Option.some.injEq] at h
    subst h
    exact List.mem_cons_self x xs

theorem find?_append_cons {α : Type} {p : α → Bool} {l₁ : List α} {c : α} (l₂ : List α)
    (h₁ : ∀ x ∈ l₁, p x = false) (hc : p c = true) :
    List.find? p (l₁ ++ c :: l₂) = some c := by
  induction l₁ with
  | nil => simp [List.find?_cons, hc]
  | cons a as ih =>
    have ha : p a = false := h₁ a (List.mem_cons_self a as)
    simp only [List.cons_append, List.find?_cons, ha]
    exact ih (fun x hx => h₁ x (List.mem_cons_of_mem a hx))

theorem prefix_extend {α : Type} {p a : List α} (r : List α) (h : p <+: a) : p <+: a ++ r :=
  h.trans (List.prefix_append a r)

theorem infix_first {α : Type} (p r : List α) : p <:+: p ++ r :=
  ⟨[], r, by simp⟩

theorem infix_self_chunk {α : Type} (p : List α) : p <:+: p :=
  ⟨[], [], by simp⟩

theorem infix_skip {α : Type} {p m : List α} (a : List α) (h : p <:+: m) : p <:+: a ++ m := by
  obtain ⟨s, t, hst⟩ := h
  exact ⟨a ++ s, t, by rw [← hst]; simp⟩

theorem forallSome_orElse {P : String → Prop} {a b : Option String}
    (ha : ∀ s, a = some s → P s) (hb : ∀ s, b = some s → P s) :
    ∀ s, (a <|> b) = some s → P s := by
  intro s h
  cases ha' : a with
  | some t =>
    rw [ha', Option.some_orElse] at h
    cases h
    exact ha _ ha'
  | none =>
    rw [ha', Option.none_orElse] at h
    exact hb _ h

theorem shape_getD {P : String → Prop} {o : Option String} {d : String}
    (ho : ∀ s, o = some s → P s) (hd : P d) : P (o.getD d) := by
  cases o with
  | none => exact hd
  | some s => exact ho s rfl

/-! ### Resolver lemmas -/

theorem truthy_eq_some {o : Option String} {c : String} :
    truthy o = some c ↔ o = some c ∧ c ≠ "" := by
  cases o with
  | none => simp [truthy]
  | some s =>
    by_cases hs : s = ""
    · subst hs
      constructor
      · intro h; simp [truthy] at h
      · intro ⟨h1, h2⟩; cases h1; exact absurd rfl h2
    · simp only [truthy, if_neg hs]
      constructor
      · intro h; cases h; exact ⟨rfl, hs⟩
      · intro ⟨h1, _⟩; cases h1; rfl

theorem exactMatchStep_mem {S : List String} {q c : String}
    (h : exactMatchStep S q = some c) : c ∈ S :=
  List.mem_of_find?_eq_some h

theorem findColumnInQuestion_def (S : List String) (q : String) :
    findColumnInQuestion S q =
      match exactMatchStep S (toLowerCase q) with
      | some col => some col
      | none =>
        match S.find? (fun col => synonymCondition (toLowerCase q) (toLowerCase col)) with
        | some col => some col
        | none =>
          match S.find? (fun col => categoricalCondition (toLowerCase col)) with
          | some col => some col
          | none => S.head? := rfl

theorem findColumnInQuestion_mem {S : List String} {q c : String}
    (h : findColumnInQuestion S q = some c) : c ∈ S := by
  rw [findColumnInQuestion_def] at h
  cases h1 : exactMatchStep S (toLowerCase q) with
  | some col =>
    simp only [h1, Option.some.injEq] at h
    subst h
    exact exactMatchStep_mem h1
  | none =>
    simp only [h1] at h
    cases h2 : S.find? (fun col => synonymCondition (toLowerCase q) (toLowerCase col)) with
    | some col =>
      simp only [h2, Option.some.injEq] at h
      subst h
      exact List.mem_of_find?_eq_some h2
    | none =>
      simp only [h2] at h
      cases h3 : S.find? (fun col => categoricalCondition (toLowerCase col)) with
      | some col =>
        simp only [h3, Option.some.injEq] at h
        subst h
        exact List.mem_of_find?_eq_some h3
      | none =>
        simp only [h3] at h
        exact head?_mem h

theorem findColumnInQuestion_total {S : List String} (q : String) (hS : S ≠ []) :
    ∃ c, findColumnInQuestion S q = some c := by
  rw [findColumnInQuestion_def]
  cases h1 : exactMatchStep S (toLowerCase q) with
  | some col => exact ⟨col, rfl⟩
  | none =>
    cases h2 : S.find? (fun col => synonymCondition (toLowerCase q) (toLowerCase col)) with
    | some col => exact ⟨col, rfl⟩
    | none =>
      cases h3 : S.find? (fun col => categoricalCondition (toLowerCase col)) with
      | some col => exact ⟨col, rfl⟩
      | none =>
        cases S with
        | nil => exact absurd rfl hS
        | cons a as => exact ⟨a, rfl⟩

theorem findSecondColumnInQuestion_mem {S : List String} {q e g : String}
    (h : findSecondColumnInQuestion S q e = some g) : g ∈ S ∧ g ≠ e := by
  unfold findSecondColumnInQuestion at h
  have hm := List.mem_of_find?_eq_some h
  rw [List.mem_filter] at hm
  exact ⟨hm.1, by simpa using hm.2⟩

/-! ### Pattern shape lemmas -/

theorem truthyMap_shape {S : List String} {q : String} {f : String → String} {out : String}
    (h : (truthy (findColumnInQuestion S q)).map f = some out) :
    ∃ c, c ∈ S ∧ c ≠ "" ∧ out = f c := by
  rw [Option.map_eq_some'] at h
  obtain ⟨c, hc, hf⟩ := h
  rw [truthy_eq_some] at hc
  exact ⟨c, findColumnInQuestion_mem hc.1, hc.2, hf.symm⟩

theorem patChart_shape {S : List String} {q out : String} (h : patChart S q = some out) :
    ∃ c, c ∈ S ∧ c ≠ "" ∧ out = groupedCountSQL c := by
  unfold patChart at h
  split at h
  · exact truthyMap_shape h
  · exact Option.noConfusion h

theorem patShowChart_shape {S : List String} {q out : String} (h : patShowChart S q = some out) :
    ∃ c, c ∈ S ∧ c ≠ "" ∧ out = groupedCountSQL c := by
  unfold patShowChart at h
  split at h
  · exact truthyMap_shape h
  · exact Option.noConfusion h

theorem patShowBy_shape {S : List String} {q out : String} (h : patShowBy S q = some out) :
    ∃ c, c ∈ S ∧ c ≠ "" ∧ out = groupedCountSQL c := by
  unfold patShowBy at h
  split at h
  · exact truthyMap_shape h
  · exact Option.noConfusion h

theorem patShowTop_shape {q out : String} (h : patShowTop q = some out) :
    ∃ n, out = limitSQL n := by
  unfold patShowTop at h
  split at h
  · cases h
    exact ⟨_, rfl⟩
  · exact Option.noConfusion h

theorem patShowAll_shape {q out : String} (h : patShowAll q = some out) :
    out = selectAllSQL := by
  unfold patShowAll at h
  split at h
  · cases h
    rfl
  · exact Option.noConfusion h

theorem patShow_shape {S : List String} {q out : String} (h : patShow S q = some out) :
    (∃ c, c ∈ S ∧ c ≠ "" ∧ out = groupedCountSQL c) ∨
      (∃ n, out = limitSQL n) ∨ out = selectAllSQL := by
  unfold patShow at h
  split at h
  · cases e1 : patShowChart S q with
    | some t =>
      rw [e1, Option.some_orElse] at h
      cases h
      exact Or.inl (patShowChart_shape e1)
    | none =>
      rw [e1, Option.none_orElse] at h
      cases e2 : patShowBy S q with
      | some t =>
        rw [e2, Option.some_orElse] at h
        cases h
        exact Or.inl (patShowBy_shape e2)
      | none =>
        rw [e2, Option.none_orElse] at h
        cases e3 : patShowTop q with
        | some t =>
          rw [e3, Option.some_orElse] at h
          cases h
          exact Or.inr (Or.inl (patShowTop_shape e3))
        | none =>
          rw [e3, Option.none_orElse] at h
          exact Or.inr (Or.inr (patShowAll_shape h))
  · exact Option.noConfusion h

theorem patCount_shape {S : List String} {q out : String} (h : patCount S q = some out) :
    (∃ c, c ∈ S ∧ c ≠ "" ∧ out = groupedCountSQL c) ∨ out = totalRowsSQL := by
  unfold patCount at h
  split at h
  · split at h
    · cases ht : truthy (findColumnInQuestion S q) with
      | some c =>
        simp only [ht, Option.some.injEq] at h
        rw [truthy_eq_some] at ht
        exact Or.inl ⟨c, findColumnInQuestion_mem ht.1, ht.2, h.symm⟩
      | none =>
        simp only [ht, Option.some.injEq] at h
        exact Or.inr h.symm
    · cases h
      exact Or.inr rfl
  · exact Option.noConfusion h

theorem patAverage_shape {S : List String} {q out : String} (h : patAverage S q = some out) :
    (∃ c, c ∈ S ∧ c ≠ "" ∧ out = avgSQL c) ∨
      (∃ c g, c ∈ S ∧ c ≠ "" ∧ g ∈ S ∧ g ≠ "" ∧ g ≠ c ∧ out = avgGroupSQL g c) := by
  unfold patAverage at h
  split at h
  · cases ht : truthy (findColumnInQuestion S q) with
    | some column =>
      simp only [ht] at h
      rw [truthy_eq_some] at ht
      have hcm := findColumnInQuestion_mem ht.1
      have hcn := ht.2
      split at h
      · cases hg : truthy (findSecondColumnInQuestion S q column) with
        | some g =>
          simp only [hg, Option.some.injEq] at h
          rw [truthy_eq_some] at hg
          have hgm := findSecondColumnInQuestion_mem hg.1
          exact Or.inr ⟨column, g, hcm, hcn, hgm.1, hg.2, hgm.2, h.symm⟩
        | none =>
          simp only [hg, Option.some.injEq] at h
          exact Or.inl ⟨column, hcm, hcn, h.symm⟩
      · simp only [Option.some.injEq] at h
        exact Or.inl ⟨column, hcm, hcn, h.symm⟩
    | none =>
      simp only [ht] at h
      exact Option.noConfusion h
  · exact Option.noConfusion h

theorem patSum_shape {S : List String} {q out : String} (h : patSum S q = some out) :
    (∃ c, c ∈ S ∧ c ≠ "" ∧ out = sumSQL c) ∨
      (∃ c g, c ∈ S ∧ c ≠ "" ∧ g ∈ S ∧ g ≠ "" ∧ g ≠ c ∧ out = sumGroupSQL g c) := by
  unfold patSum at h
  split at h
  · cases ht : truthy (findColumnInQuestion S q) with
    | some column =>
      simp only [ht] at h
      rw [truthy_eq_some] at ht
      have hcm := findColumnInQuestion_mem ht.1
      have hcn := ht.2
      split at h
      · cases hg : truthy (findSecondColumnInQuestion S q column) with
        | some g =>
          simp only [hg, Option.some.injEq] at h
          rw [truthy_eq_some] at hg
          have hgm := findSecondColumnInQuestion_mem hg.1
          exact Or.inr ⟨column, g, hcm, hcn, hgm.1, hg.2, hgm.2, h.symm⟩
        | none =>
          simp only [hg, Option.some.injEq] at h
          exact Or.inl ⟨column, hcm, hcn, h.symm⟩
      · simp only [Option.some.injEq] at h
        exact Or.inl ⟨column, hcm, hcn, h.symm⟩
    | none =>
      simp only [ht] at h
      exact Option.noConfusion h
  · exact Option.noConfusion h

theorem patMax_shape {S : List String} {q out : String} (h : patMax S q = some out) :
    ∃ c, c ∈ S ∧ c ≠ "" ∧ out = maxSQL c := by
  unfold patMax at h
  split at h
  · exact truthyMap_shape h
  · exact Option.noConfusion h

theorem patMin_shape {S : List String} {q out : String} (h : patMin S q = some out) :
    ∃ c, c ∈ S ∧ c ≠ "" ∧ out = minSQL c := by
  unfold patMin at h
  split at h
  · exact truthyMap_shape h
  · exact Option.noConfusion h

theorem patDistinct_shape {S : List String} {q out : String} (h : patDistinct S q = some out) :
    ∃ c, c ∈ S ∧ c ≠ "" ∧ out = distinctSQL c := by
  unfold patDistinct at h
  split at h
  · exact truthyMap_shape h
  · exact Option.noConfusion h

theorem patGreater_shape {S : List String} {q out : String} (h : patGreater S q = some out) :
    ∃ c n, c ∈ S ∧ c ≠ "" ∧ n ≠ 0 ∧ out = greaterSQL c n := by
  unfold patGreater at h
  split at h
  · cases ht : truthy (findColumnInQuestion S q) with
    | some c =>
      cases hn : extractNumber q with
      | some v =>
        simp only [ht, hn] at h
        by_cases hv : v = 0
        · rw [if_pos hv] at h
          exact Option.noConfusion h
        · rw [if_neg hv] at h
          cases h
          rw [truthy_eq_some] at ht
          exact ⟨c, v, findColumnInQuestion_mem ht.1, ht.2, hv, rfl⟩
      | none =>
        simp only [ht, hn] at h
        exact Option.noConfusion h
    | none =>
      simp only [ht] at h
      exact Option.noConfusion h
  · exact Option.noConfusion h

theorem patLess_shape {S : List String} {q out : String} (h : patLess S q = some out) :
    ∃ c n, c ∈ S ∧ c ≠ "" ∧ n ≠ 0 ∧ out = lessSQL c n := by
  unfold patLess at h
  split at h
  · cases ht : truthy (findColumnInQuestion S q) with
    | some c =>
      cases hn : extractNumber q with
      | some v =>
        simp only [ht, hn] at h
        by_cases hv : v = 0
        · rw [if_pos hv] at h
          exact Option.noConfusion h
        · rw [if_neg hv] at h
          cases h
          rw [truthy_eq_some] at ht
          exact ⟨c, v, findColumnInQuestion_mem ht.1, ht.2, hv, rfl⟩
      | none =>
        simp only [ht, hn] at h
        exact Option.noConfusion h
    | none =>
      simp only [ht] at h
      exact Option.noConfusion h
  · exact Option.noConfusion h

theorem patSort_shape {S : List String} {q out : String} (h : patSort S q = some out) :
    ∃ c d, c ∈ S ∧ c ≠ "" ∧ (d = "ASC" ∨ d = "DESC") ∧ out = sortSQL c d := by
  unfold patSort at h
  split at h
  · obtain ⟨c, hm, hn, hout⟩ := truthyMap_shape h
    refine ⟨c, _, hm, hn, ?_, hout⟩
    split
    · exact Or.inr rfl
    · exact Or.inl rfl
  · exact Option.noConfusion h

theorem patSearch_shape {S : List String} {q out : String} (h : patSearch S q = some out) :
    ∃ c v, c ∈ S ∧ c ≠ "" ∧ v ≠ "" ∧ out = searchSQL c v := by
  unfold patSearch at h
  split at h
  · cases ht : truthy (findColumnInQuestion S q) with
    | some c =>
      simp only [ht] at h
      cases hv : extractQuotedValue q with
      | some v =>
        simp only [hv] at h
        by_cases hve : v = ""
        · rw [if_pos hve] at h
          exact Option.noConfusion h
        · rw [if_neg hve] at h
          cases h
          rw [truthy_eq_some] at ht
          exact ⟨c, v, findColumnInQuestion_mem ht.1, ht.2, hve, rfl⟩
      | none =>
        simp only [hv] at h
        exact Option.noConfusion h
    | none =>
      simp only [ht] at h
      exact Option.noConfusion h
  · exact Option.noConfusion h

theorem patBy_shape {S : List String} {q out : String} (h : patBy S q = some out) :
    ∃ c, c ∈ S ∧ c ≠ "" ∧ out = groupedCountSQL c := by
  unfold patBy at h
  split at h
  · exact truthyMap_shape h
  · exact Option.noConfusion h

/-! ### The synthesizer emits only the fixed shapes -/

theorem generateSQLWithPatterns_def (S : List String) (q : String) :
    generateSQLWithPatterns S q =
      (patChart S (toLowerCase q) <|> patShow S (toLowerCase q) <|>
        patCount S (toLowerCase q) <|> patAverage S (toLowerCase q) <|>
        patSum S (toLowerCase q) <|> patMax S (toLowerCase q) <|>
        patMin S (toLowerCase q) <|> patDistinct S (toLowerCase q) <|>
        patGreater S (toLowerCase q) <|> patLess S (toLowerCase q) <|>
        patSort S (toLowerCase q) <|> patSearch S (toLowerCase q) <|>
        patBy S (toLowerCase q)).getD defaultSQL := rfl

theorem generateSQLWithPatterns_shape (S : List String) (q : String) :
    ShapeInv S (generateSQLWithPatterns S q) := by
  rw [generateSQLWithPatterns_def]
  have hChart : ∀ s, patChart S (toLowerCase q) = some s → ShapeInv S s := by
    intro s hs
    obtain ⟨c, m, n, rfl⟩ := patChart_shape hs
    exact Or.inl ⟨c, m, n, rfl⟩
  have hShow : ∀ s, patShow S (toLowerCase q) = some s → ShapeInv S s := by
    intro s hs
    rcases patShow_shape hs with ⟨c, m, n, rfl⟩ | ⟨n, rfl⟩ | rfl
    · exact Or.inl ⟨c, m, n, rfl⟩
    · exact Or.inr (Or.inl ⟨n, rfl⟩)
    · exact Or.inr (Or.inr (Or.inl rfl))
  have hCount : ∀ s, patCount S (toLowerCase q) = some s → ShapeInv S s := by
    intro s hs
    rcases patCount_shape hs with ⟨c, m, n, rfl⟩ | rfl
    · exact Or.inl ⟨c, m, n, rfl⟩
    · exact Or.inr (Or.inr (Or.inr (Or.inl rfl)))
  have hAvg : ∀ s, patAverage S (toLowerCase q) = some s → ShapeInv S s := by
    intro s hs
    rcases patAverage_shape hs with ⟨c, m, n, rfl⟩ | ⟨c, g, m, n, mg, ng, gc, rfl⟩
    · exact Or.inr (Or.inr (Or.inr (Or.inr (Or.inl ⟨c, m, n, rfl⟩))))
    · exact Or.inr (Or.inr (Or.inr (Or.inr (Or.inr (Or.inl ⟨c, g, m, n, mg, ng, gc, rfl⟩)))))
  have hSum : ∀ s, patSum S (toLowerCase q) = some s → ShapeInv S s := by
    intro s hs
    rcases patSum_shape hs with ⟨c, m, n, rfl⟩ | ⟨c, g, m, n, mg, ng, gc, rfl⟩
    · exact Or.inr (Or.inr (Or.inr (Or.inr (Or.inr (Or.inr (Or.inl ⟨c, m, n, rfl⟩))))))
    · exact Or.inr (Or.inr (Or.inr (Or.inr (Or.inr (Or.inr (Or.inr (Or.inl
        ⟨c, g, m, n, mg, ng, gc, rfl⟩)))))))
  have hMax : ∀ s, patMax S (toLowerCase q) = some s → ShapeInv S s := by
    intro s hs
    obtain ⟨c, m, n, rfl⟩ := patMax_shape hs
    exact Or.inr (Or.inr (Or.inr (Or.inr (Or.inr (Or.inr (Or.inr (Or.inr (Or.inl
      ⟨c, m, n, rfl⟩))))))))
  have hMin : ∀ s, patMin S (toLowerCase q) = some s → ShapeInv S s := by
    intro s hs
    obtain ⟨c, m, n, rfl⟩ := patMin_shape hs
    exact Or.inr (Or.inr (Or.inr (Or.inr (Or.inr (Or.inr (Or.inr (Or.inr (Or.inr (Or.inl
      ⟨c, m, n, rfl⟩)))))))))
  have hDistinct : ∀ s, patDistinct S (toLowerCase q) = some s → ShapeInv S s := by
    intro s hs
    obtain ⟨c, m, n, rfl⟩ := patDistinct_shape hs
    exact Or.inr (Or.inr (Or.inr (Or.inr (Or.inr (Or.inr (Or.inr (Or.inr (Or.inr (Or.inr
      (Or.inl ⟨c, m, n, rfl⟩))))))))))
  have hGreater : ∀ s, patGreater S (toLowerCase q) = some s → ShapeInv S s := by
    intro s hs
    obtain ⟨c, n, m, ne, nz, rfl⟩ := patGreater_shape hs
    exact Or.inr (Or.inr (Or.inr (Or.inr (Or.inr (Or.inr (Or.inr (Or.inr (Or.inr (Or.inr
      (Or.inr (Or.inl ⟨c, n, m, ne, nz, rfl⟩)))))))))))
  have hLess : ∀ s, patLess S (toLowerCase q) = some s → ShapeInv S s := by
    intro s hs
    obtain ⟨c, n, m, ne, nz, rfl⟩ := patLess_shape hs
    exact Or.inr (Or.inr (Or.inr (Or.inr (Or.inr (Or.inr (Or.inr (Or.inr (Or.inr (Or.inr
      (Or.inr (Or.inr (Or.inl ⟨c, n, m, ne, nz, rfl⟩))))))))))))
  have hSort : ∀ s, patSort S (toLowerCase q) = some s → ShapeInv S s := by
    intro s hs
    obtain ⟨c, d, m, ne, hd, rfl⟩ := patSort_shape hs
    exact Or.inr (Or.inr (Or.inr (Or.inr (Or.inr (Or.inr (Or.inr (Or.inr (Or.inr (Or.inr
      (Or.inr (Or.inr (Or.inr (Or.inl ⟨c, d, m, ne, hd, rfl⟩)))))))))))))
  have hSearch : ∀ s, patSearch S (toLowerCase q) = some s → ShapeInv S s := by
    intro s hs
    obtain ⟨c, v, m, ne, nv, rfl⟩ := patSearch_shape hs
    exact Or.inr (Or.inr (Or.inr (Or.inr (Or.inr (Or.inr (Or.inr (Or.inr (Or.inr (Or.inr
      (Or.inr (Or.inr (Or.inr (Or.inr (Or.inl ⟨c, v, m, ne, nv, rfl⟩))))))))))))))
  have hBy : ∀ s, patBy S (toLowerCase q) = some s → ShapeInv S s := by
    intro s hs
    obtain ⟨c, m, n, rfl⟩ := patBy_shape hs
    exact Or.inl ⟨c, m, n, rfl⟩
  refine shape_getD ?_ ?_
  · exact forallSome_orElse hChart (forallSome_orElse hShow (forallSome_orElse hCount
      (forallSome_orElse hAvg (forallSome_orElse hSum (forallSome_orElse hMax
      (forallSome_orElse hMin (forallSome_orElse hDistinct (forallSome_orElse hGreater
      (forallSome_orElse hLess (forallSome_orElse hSort
      (forallSome_orElse hSearch hBy)))))))))))
  · exact Or.inr (Or.inr (Or.inr (Or.inr (Or.inr (Or.inr (Or.inr (Or.inr (Or.inr (Or.inr
      (Or.inr (Or.inr (Or.inr (Or.inr (Or.inr rfl))))))))))))))

/-! ### Every emitted shape starts with SELECT and names only user_data -/

theorem groupedCountSQL_select (c : String) : "SELECT".data <+: (groupedCountSQL c).data := by
  unfold groupedCountSQL tableName
  simp only [String.data_append, List.append_assoc]
  exact prefix_extend _ (by decide)

theorem groupedCountSQL_table (c : String) : "user_data".data <:+: (groupedCountSQL c).data := by
  unfold groupedCountSQL tableName
  simp only [String.data_append, List.append_assoc]
  exact infix_skip _ (infix_skip _ (infix_skip _ (infix_first _ _)))

theorem limitSQL_select (n : Nat) : "SELECT".data <+: (limitSQL n).data := by
  unfold limitSQL tableName
  simp only [String.data_append, List.append_assoc]
  exact prefix_extend _ (by decide)

theorem limitSQL_table (n : Nat) : "user_data".data <:+: (limitSQL n).data := by
  unfold limitSQL tableName
  simp only [String.data_append, List.append_assoc]
  exact infix_skip _ (infix_first _ _)

theorem selectAllSQL_select : "SELECT".data <+: selectAllSQL.data := by
  unfold selectAllSQL tableName
  simp only [String.data_append, List.append_assoc]
  exact prefix_extend _ (by decide)

theorem selectAllSQL_table : "user_data".data <:+: selectAllSQL.data := by
  unfold selectAllSQL tableName
  simp only [String.data_append, List.append_assoc]
  exact infix_skip _ (infix_self_chunk _)

theorem totalRowsSQL_select : "SELECT".data <+: totalRowsSQL.data := by
  unfold totalRowsSQL tableName
  simp only [String.data_append, List.append_assoc]
  exact prefix_extend _ (by decide)

theorem totalRowsSQL_table : "user_data".data <:+: totalRowsSQL.data := by
  unfold totalRowsSQL tableName
  simp only [String.data_append, List.append_assoc]
  exact infix_skip _ (infix_self_chunk _)

theorem avgSQL_select (c : String) : "SELECT".data <+: (avgSQL c).data := by
  unfold avgSQL tableName
  simp only [String.data_append, List.append_assoc]
  exact prefix_extend _ (by decide)

theorem avgSQL_table (c : String) : "user_data".data <:+: (avgSQL c).data := by
  unfold avgSQL tableName
  simp only [String.data_append, List.append_assoc]
  exact infix_skip _ (infix_skip _ (infix_skip _ (infix_skip _ (infix_skip _
    (infix_self_chunk _)))))

theorem avgGroupSQL_select (g c : String) : "SELECT".data <+: (avgGroupSQL g c).data := by
  unfold avgGroupSQL tableName
  simp only [String.data_append, List.append_assoc]
  exact prefix_extend _ (by decide)

theorem avgGroupSQL_table (g c : String) : "user_data".data <:+: (avgGroupSQL g c).data := by
  unfold avgGroupSQL tableName
  simp only [String.data_append, List.append_assoc]
  exact infix_skip _ (infix_skip _ (infix_skip _ (infix_skip _ (infix_skip _
    (infix_skip _ (infix_skip _ (infix_first _ _)))))))

theorem sumSQL_select (c : String) : "SELECT".data <+: (sumSQL c).data := by
  unfold sumSQL tableName
  simp only [String.data_append, List.append_assoc]
  exact prefix_extend _ (by decide)

theorem sumSQL_table (c : String) : "user_data".data <:+: (sumSQL c).data := by
  unfold sumSQL tableName
  simp only [String.data_append, List.append_assoc]
  exact infix_skip _ (infix_skip _ (infix_skip _ (infix_skip _ (infix_skip _
    (infix_self_chunk _)))))

theorem sumGroupSQL_select (g c : String) : "SELECT".data <+: (sumGroupSQL g c).data := by
  unfold sumGroupSQL tableName
  simp only [String.data_append, List.append_assoc]
  exact prefix_extend _ (by decide)

theorem sumGroupSQL_table (g c : String) : "user_data".data <:+: (sumGroupSQL g c).data := by
  unfold sumGroupSQL tableName
  simp only [String.data_append, List.append_assoc]
  exact infix_skip _ (infix_skip _ (infix_skip _ (infix_skip _ (infix_skip _
    (infix_skip _ (infix_skip _ (infix_first _ _)))))))

theorem maxSQL_select (c : String) : "SELECT".data <+: (maxSQL c).data := by
  unfold maxSQL tableName
  simp only [String.data_append, List.append_assoc]
  exact prefix_extend _ (by decide)

theorem maxSQL_table (c : String) : "user_data".data <:+: (maxSQL c).data := by
  unfold maxSQL tableName
  simp only [String.data_append, List.append_assoc]
  exact infix_skip _ (infix_first _ _)

theorem minSQL_select (c : String) : "SELECT".data <+: (minSQL c).data := by
  unfold minSQL tableName
  simp only [String.data_append, List.append_assoc]
  exact prefix_extend _ (by decide)

theorem minSQL_table (c : String) : "user_data".data <:+: (minSQL c).data := by
  unfold minSQL tableName
  simp only [String.data_append, List.append_assoc]
  exact infix_skip _ (infix_first _ _)

theorem distinctSQL_select (c : String) : "SELECT".data <+: (distinctSQL c).data := by
  unfold distinctSQL tableName
  simp only [String.data_append, List.append_assoc]
  exact prefix_extend _ (by decide)

theorem distinctSQL_table (c : String) : "user_data".data <:+: (distinctSQL c).data := by
  unfold distinctSQL tableName
  simp only [String.data_append, List.append_assoc]
  exact infix_skip _ (infix_skip _ (infix_skip _ (infix_first _ _)))

theorem greaterSQL_select (c : String) (n : Nat) : "SELECT".data <+: (greaterSQL c n).data := by
  unfold greaterSQL tableName
  simp only [String.data_append, List.append_assoc]
  exact prefix_extend _ (by decide)

theorem greaterSQL_table (c : String) (n : Nat) :
    "user_data".data <:+: (greaterSQL c n).data := by
  unfold greaterSQL tableName
  simp only [String.data_append, List.append_assoc]
  exact infix_skip _ (infix_first _ _)

theorem lessSQL_select (c : String) (n : Nat) : "SELECT".data <+: (lessSQL c n).data := by
  unfold lessSQL tableName
  simp only [String.data_append, List.append_assoc]
  exact prefix_extend _ (by decide)

theorem lessSQL_table (c : String) (n : Nat) : "user_data".data <:+: (lessSQL c n).data := by
  unfold lessSQL tableName
  simp only [String.data_append, List.append_assoc]
  exact infix_skip _ (infix_first _ _)

theorem sortSQL_select (c d : String) : "SELECT".data <+: (sortSQL c d).data := by
  unfold sortSQL tableName
  simp only [String.data_append, List.append_assoc]
  exact prefix_extend _ (by decide)

theorem sortSQL_table (c d : String) : "user_data".data <:+: (sortSQL c d).data := by
  unfold sortSQL tableName
  simp only [String.data_append, List.append_assoc]
  exact infix_skip _ (infix_first _ _)

theorem searchSQL_select (c v : String) : "SELECT".data <+: (searchSQL c v).data := by
  unfold searchSQL tableName
  simp only [String.data_append, List.append_assoc]
  exact prefix_extend _ (by decide)

theorem searchSQL_table (c v : String) : "user_data".data <:+: (searchSQL c v).data := by
  unfold searchSQL tableName
  simp only [String.data_append, List.append_assoc]
  exact infix_skip _ (infix_first _ _)

theorem defaultSQL_select : "SELECT".data <+: defaultSQL.data := by
  unfold defaultSQL tableName
  simp only [String.data_append, List.append_assoc]
  exact prefix_extend _ (by decide)

theorem defaultSQL_table : "user_data".data <:+: defaultSQL.data := by
  unfold defaultSQL tableName
  simp only [String.data_append, List.append_assoc]
  exact infix_skip _ (infix_first _ _)

theorem shape_select {S : List String} {out : String} (h : ShapeInv S out) :
    "SELECT".data <+: out.data := by
  rcases h with ⟨c, _, _, rfl⟩ | ⟨n, rfl⟩ | rfl | rfl | ⟨c, _, _, rfl⟩ |
    ⟨c, g, _, _, _, _, _, rfl⟩ | ⟨c, _, _, rfl⟩ | ⟨c, g, _, _, _, _, _, rfl⟩ |
    ⟨c, _, _, rfl⟩ | ⟨c, _, _, rfl⟩ | ⟨c, _, _, rfl⟩ | ⟨c, n, _, _, _, rfl⟩ |
    ⟨c, n, _, _, _, rfl⟩ | ⟨c, d, _, _, _, rfl⟩ | ⟨c, v, _, _, _, rfl⟩ | rfl
  · exact groupedCountSQL_select c
  · exact limitSQL_select n
  · exact selectAllSQL_select
  · exact totalRowsSQL_select
  · exact avgSQL_select c
  · exact avgGroupSQL_select g c
  · exact sumSQL_select c
  · exact sumGroupSQL_select g c
  · exact maxSQL_select c
  · exact minSQL_select c
  · exact distinctSQL_select c
  · exact greaterSQL_select c n
  · exact lessSQL_select c n
  · exact sortSQL_select c d
  · exact searchSQL_select c v
  · exact defaultSQL_select

theorem shape_table {S : List String} {out : String} (h : ShapeInv S out) :
    "user_data".data <:+: out.data := by
  rcases h with ⟨c, _, _, rfl⟩ | ⟨n, rfl⟩ | rfl | rfl | ⟨c, _, _, rfl⟩ |
    ⟨c, g, _, _, _, _, _, rfl⟩ | ⟨c, _, _, rfl⟩ | ⟨c, g, _, _, _, _, _, rfl⟩ |
    ⟨c, _, _, rfl⟩ | ⟨c, _, _, rfl⟩ | ⟨c, _, _, rfl⟩ | ⟨c, n, _, _, _, rfl⟩ |
    ⟨c, n, _, _, _, rfl⟩ | ⟨c, d, _, _, _, rfl⟩ | ⟨c, v, _, _, _, rfl⟩ | rfl
  · exact groupedCountSQL_table c
  · exact limitSQL_table n
  · exact selectAllSQL_table
  · exact totalRowsSQL_table
  · exact avgSQL_table c
  · exact avgGroupSQL_table g c
  · exact sumSQL_table c
  · exact sumGroupSQL_table g c
  · exact maxSQL_table c
  · exact minSQL_table c
  · exact distinctSQL_table c
  · exact greaterSQL_table c n
  · exact lessSQL_table c n
  · exact sortSQL_table c d
  · exact searchSQL_table c v
  · exact defaultSQL_table

theorem ne_empty_of_select {s : String} (h : "SELECT".data <+: s.data) : s ≠ "" := by
  intro he
  subst he
  rw [show ("" : String).data = [] from rfl, List.prefix_nil] at h
  exact absurd h (by decide)

/-! ### When no trigger keyword occurs, the default fires -/

theorem noTrigger_includes {q kw : String} (h : anyTriggerKeyword q = false)
    (hm : kw ∈ triggerKeywords) : strIncludes q kw = false := by
  rw [anyTriggerKeyword, List.any_eq_false] at h
  have := h kw hm
  simpa using this

theorem noTrigger_default {S : List String} {q : String}
    (h : anyTriggerKeyword (toLowerCase q) = false) :
    generateSQLWithPatterns S q = defaultSQL := by
  have kChart := noTrigger_includes h (show "chart" ∈ triggerKeywords by decide)
  have kGraph := noTrigger_includes h (show "graph" ∈ triggerKeywords by decide)
  have kPlot := noTrigger_includes h (show "plot" ∈ triggerKeywords by decide)
  have kShow := noTrigger_includes h (show "show" ∈ triggerKeywords by decide)
  have kDisplay := noTrigger_includes h (show "display" ∈ triggerKeywords by decide)
  have kView := noTrigger_includes h (show "view" ∈ triggerKeywords by decide)
  have kCount := noTrigger_includes h (show "count" ∈ triggerKeywords by decide)
  have kAverage := noTrigger_includes h (show "average" ∈ triggerKeywords by decide)
  have kAvg := noTrigger_includes h (show "avg" ∈ triggerKeywords by decide)
  have kMean := noTrigger_includes h (show "mean" ∈ triggerKeywords by decide)
  have kSum := noTrigger_includes h (show "sum" ∈ triggerKeywords by decide)
  have kTotal := noTrigger_includes h (show "total" ∈ triggerKeywords by decide)
  have kMaximum := noTrigger_includes h (show "maximum" ∈ triggerKeywords by decide)
  have kMax := noTrigger_includes h (show "max" ∈ triggerKeywords by decide)
  have kHighest := noTrigger_includes h (show "highest" ∈ triggerKeywords by decide)
  have kMinimum := noTrigger_includes h (show "minimum" ∈ triggerKeywords by decide)
  have kMin := noTrigger_includes h (show "min" ∈ triggerKeywords by decide)
  have kLowest := noTrigger_includes h (show "lowest" ∈ triggerKeywords by decide)
  have kUnique := noTrigger_includes h (show "unique" ∈ triggerKeywords by decide)
  have kDistinct := noTrigger_includes h (show "distinct" ∈ triggerKeywords by decide)
  have kGreater := noTrigger_includes h (show "greater than" ∈ triggerKeywords by decide)
  have kGt := noTrigger_includes h (show ">" ∈ triggerKeywords by decide)
  have kMore := noTrigger_includes h (show "more than" ∈ triggerKeywords by decide)
  have kLess := noTrigger_includes h (show "less than" ∈ triggerKeywords by decide)
  have kLt := noTrigger_includes h (show "<" ∈ triggerKeywords by decide)
  have kBelow := noTrigger_includes h (show "below" ∈ triggerKeywords by decide)
  have kSort := noTrigger_includes h (show "sort" ∈ triggerKeywords by decide)
  have kOrder := noTrigger_includes h (show "order" ∈ triggerKeywords by decide)
  have kFind := noTrigger_includes h (show "find" ∈ triggerKeywords by decide)
  have kSearch := noTrigger_includes h (show "search" ∈ triggerKeywords by decide)
  have kWhere := noTrigger_includes h (show "where" ∈ triggerKeywords by decide)
  have kBy := noTrigger_includes h (show " by " ∈ triggerKeywords by decide)
  have p1 : patChart S (toLowerCase q) = none := by simp [patChart, kChart, kGraph, kPlot]
  have p2 : patShow S (toLowerCase q) = none := by simp [patShow, kShow, kDisplay, kView]
  have p3 : patCount S (toLowerCase q) = none := by simp [patCount, kCount]
  have p4 : patAverage S (toLowerCase q) = none := by
    simp [patAverage, kAverage, kAvg, kMean]
  have p5 : patSum S (toLowerCase q) = none := by simp [patSum, kSum, kTotal]
  have p6 : patMax S (toLowerCase q) = none := by simp [patMax, kMaximum, kMax, kHighest]
  have p7 : patMin S (toLowerCase q) = none := by simp [patMin, kMinimum, kMin, kLowest]
  have p8 : patDistinct S (toLowerCase q) = none := by
    simp [patDistinct, kUnique, kDistinct]
  have p9 : patGreater S (toLowerCase q) = none := by simp [patGreater, kGreater, kGt, kMore]
  have p10 : patLess S (toLowerCase q) = none := by simp [patLess, kLess, kLt, kBelow]
  have p11 : patSort S (toLowerCase q) = none := by simp [patSort, kSort, kOrder]
  have p12 : patSearch S (toLowerCase q) = none := by
    simp [patSearch, kFind, kSearch, kWhere]
  have p13 : patBy S (toLowerCase q) = none := by simp [patBy, kBy]
  rw [generateSQLWithPatterns_def, p1, Option.none_orElse, p2, Option.none_orElse,
    p3, Option.none_orElse, p4, Option.none_orElse, p5, Option.none_orElse,
    p6, Option.none_orElse, p7, Option.none_orElse, p8, Option.none_orElse,
    p9, Option.none_orElse, p10, Option.none_orElse, p11, Option.none_orElse,
    p12, Option.none_orElse, p13]
  rfl

/-! ### Claim theorems -/

/-- C1: for every question string and every schema, the synthesizer
`generateSQLWithPatterns` is total and returns a non-empty string that
starts with `SELECT` and contains the fixed table name `user_data`; in
particular, when no pattern's trigger keyword occurs in the lower-cased
question, it returns the default statement
`SELECT * FROM user_data LIMIT 20`. -/
theorem claim1_synthesizer_total_select_userdata (S : List String) (q : String) :
    generateSQLWithPatterns S q ≠ "" ∧
    "SELECT".data <+: (generateSQLWithPatterns S q).data ∧
    "user_data".data <:+: (generateSQLWithPatterns S q).data ∧
    (anyTriggerKeyword (toLowerCase q) = false →
      generateSQLWithPatterns S q = "SELECT * FROM user_data LIMIT 20") := by
  have hs := generateSQLWithPatterns_shape S q
  refine ⟨ne_empty_of_select (shape_select hs), shape_select hs, shape_table hs, ?_⟩
  intro h
  rw [noTrigger_default h]
  rfl

theorem generateSQL_of_patChart {S : List String} {q s : String}
    (h : patChart S (toLowerCase q) = some s) : generateSQLWithPatterns S q = s := by
  rw [generateSQLWithPatterns_def, h, Option.some_orElse]
  rfl

theorem generateSQL_of_patGreater {S : List String} {q s : String}
    (h1 : patChart S (toLowerCase q) = none) (h2 : patShow S (toLowerCase q) = none)
    (h3 : patCount S (toLowerCase q) = none) (h4 : patAverage S (toLowerCase q) = none)
    (h5 : patSum S (toLowerCase q) = none) (h6 : patMax S (toLowerCase q) = none)
    (h7 : patMin S (toLowerCase q) = none) (h8 : patDistinct S (toLowerCase q) = none)
    (h9 : patGreater S (toLowerCase q) = some s) : generateSQLWithPatterns S q = s := by
  rw [generateSQLWithPatterns_def, h1, Option.none_orElse, h2, Option.none_orElse,
    h3, Option.none_orElse, h4, Option.none_orElse, h5, Option.none_orElse,
    h6, Option.none_orElse, h7, Option.none_orElse, h8, Option.none_orElse,
    h9, Option.some_orElse]
  rfl

/-- C4: every SQL string the synthesizer returns is one of the fixed
templates of `ShapeInv`: each template wraps every schema-column slot in
double quotes, every referenced column is a member of the schema, the
aggregate aliases `average_<col>`, `avg_<col>` and `total_<col>` carry the
resolved column's name, and the only table any template names is the
constant `user_data` (restated by the infix conjunct). -/
theorem claim4_quoted_columns_fixed_table (S : List String) (q : String) :
    ShapeInv S (generateSQLWithPatterns S q) ∧
    "user_data".data <:+: (generateSQLWithPatterns S q).data := by
  have hs := generateSQLWithPatterns_shape S q
  exact ⟨hs, shape_table hs⟩

/-- C2 counterexample: the claim fails as stated for the non-empty schema
`[""]` (a lone empty-string column name): the question `"chart average"`
contains both a chart keyword and an average keyword, yet the synthesizer
returns the default statement — JavaScript's `if (column)` treats the
resolved empty-string column as falsy and skips the chart pattern — so the
output is not the grouped-count shape for any schema column. -/
theorem claim2_chart_priority_counterexample :
    ([""] : List String) ≠ [] ∧
    strIncludes (toLowerCase "chart average") "chart" = true ∧
    strIncludes (toLowerCase "chart average") "average" = true ∧
    generateSQLWithPatterns [""] "chart average" = "SELECT * FROM user_data LIMIT 20" ∧
    (∀ c ∈ ([""] : List String),
      generateSQLWithPatterns [""] "chart average" ≠ groupedCountSQL c) := by
  refine ⟨by decide, by decide, by decide, by decide, by decide⟩

/-- C2 (amended): for every question containing a chart keyword
(`"chart"`, `"graph"` or `"plot"`) and an average keyword (`"average"`,
`"avg"` or `"mean"`), with a non-empty schema none of whose column names
is the empty string, the synthesizer emits the grouped-count (chart) shape
for the resolved column — never the AVG shape. -/
theorem claim2_chart_priority_amended (S : List String) (q : String)
    (hS : S ≠ []) (hne : ∀ c ∈ S, c ≠ "")
    (hchart : strIncludes (toLowerCase q) "chart" = true ∨
      strIncludes (toLowerCase q) "graph" = true ∨
      strIncludes (toLowerCase q) "plot" = true)
    (havg : strIncludes (toLowerCase q) "average" = true ∨
      strIncludes (toLowerCase q) "avg" = true ∨
      strIncludes (toLowerCase q) "mean" = true) :
    ∃ c, findColumnInQuestion S (toLowerCase q) = some c ∧ c ∈ S ∧
      generateSQLWithPatterns S q = groupedCountSQL c := by
  obtain ⟨c, hc⟩ := findColumnInQuestion_total (toLowerCase q) hS
  have hm := findColumnInQuestion_mem hc
  have hcne := hne c hm
  refine ⟨c, hc, hm, ?_⟩
  apply generateSQL_of_patChart
  unfold patChart
  have hcond : (strIncludes (toLowerCase q) "chart" || strIncludes (toLowerCase q) "graph" ||
      strIncludes (toLowerCase q) "plot") = true := by
    rcases hchart with h | h | h <;> simp [h]
  rw [if_pos hcond, hc]
  simp [truthy, hcne]

/-- C2 witness: the amended theorem applied at the schema
`["Software", "Category", "Installs"]` and the question
`"chart of average installs by category"`, which contains both a chart and
an average keyword. -/
theorem claim2_chart_priority_witness :
    ∃ c, findColumnInQuestion ["Software", "Category", "Installs"]
        (toLowerCase "chart of average installs by category") = some c ∧
      c ∈ ["Software", "Category", "Installs"] ∧
      generateSQLWithPatterns ["Software", "Category", "Installs"]
        "chart of average installs by category" = groupedCountSQL c :=
  claim2_chart_priority_amended ["Software", "Category", "Installs"]
    "chart of average installs by category" (by decide) (by decide)
    (Or.inl (by decide)) (Or.inl (by decide))

/-- C7 counterexample: the claim fails as stated when the extracted number
is 0: `"more than 0 items"` over the schema `["Price"]` contains
`"more than"` together with the number 0, no higher-priority trigger is
met and the column `"Price"` resolves, yet the synthesizer returns the
default statement — JavaScript's `if (column && value)` treats the number
0 as falsy and skips the comparison pattern. -/
theorem claim7_greater_than_counterexample :
    strIncludes (toLowerCase "more than 0 items") "more than" = true ∧
    extractNumber (toLowerCase "more than 0 items") = some 0 ∧
    findColumnInQuestion ["Price"] (toLowerCase "more than 0 items") = some "Price" ∧
    generateSQLWithPatterns ["Price"] "more than 0 items" =
      "SELECT * FROM user_data LIMIT 20" ∧
    generateSQLWithPatterns ["Price"] "more than 0 items" ≠ greaterSQL "Price" 0 := by
  refine ⟨by decide, by decide, by decide, by decide, by decide⟩

/-- C7 (amended): for every question that contains `"greater than"`, `">"`
or `"more than"` together with a NONZERO extracted number `n`, when no
higher-priority pattern's trigger keyword occurs and the resolver yields a
non-empty column `c`, the synthesizer returns
`SELECT * FROM user_data WHERE "c" > n ORDER BY "c" DESC`. -/
theorem claim7_greater_than_amended (S : List String) (q c : String) (n : Nat)
    (hkChart : strIncludes (toLowerCase q) "chart" = false)
    (hkGraph : strIncludes (toLowerCase q) "graph" = false)
    (hkPlot : strIncludes (toLowerCase q) "plot" = false)
    (hkShow : strIncludes (toLowerCase q) "show" = false)
    (hkDisplay : strIncludes (toLowerCase q) "display" = false)
    (hkView : strIncludes (toLowerCase q) "view" = false)
    (hkCount : strIncludes (toLowerCase q) "count" = false)
    (hkAverage : strIncludes (toLowerCase q) "average" = false)
    (hkAvg : strIncludes (toLowerCase q) "avg" = false)
    (hkMean : strIncludes (toLowerCase q) "mean" = false)
    (hkSum : strIncludes (toLowerCase q) "sum" = false)
    (hkTotal : strIncludes (toLowerCase q) "total" = false)
    (hkMaximum : strIncludes (toLowerCase q) "maximum" = false)
    (hkMax : strIncludes (toLowerCase q) "max" = false)
    (hkHighest : strIncludes (toLowerCase q) "highest" = false)
    (hkMinimum : strIncludes (toLowerCase q) "minimum" = false)
    (hkMin : strIncludes (toLowerCase q) "min" = false)
    (hkLowest : strIncludes (toLowerCase q) "lowest" = false)
    (hkUnique : strIncludes (toLowerCase q) "unique" = false)
    (hkDistinct : strIncludes (toLowerCase q) "distinct" = false)
    (htrig : strIncludes (toLowerCase q) "greater than" = true ∨
      strIncludes (toLowerCase q) ">" = true ∨
      strIncludes (toLowerCase q) "more than" = true)
    (hcol : findColumnInQuestion S (toLowerCase q) = some c) (hcne : c ≠ "")
    (hnum : extractNumber (toLowerCase q) = some n) (hnz : n ≠ 0) :
    generateSQLWithPatterns S q = greaterSQL c n := by
  apply generateSQL_of_patGreater
  · simp [patChart, hkChart, hkGraph, hkPlot]
  · simp [patShow, hkShow, hkDisplay, hkView]
  · simp [patCount, hkCount]
  · simp [patAverage, hkAverage, hkAvg, hkMean]
  · simp [patSum, hkSum, hkTotal]
  · simp [patMax, hkMaximum, hkMax, hkHighest]
  · simp [patMin, hkMinimum, hkMin, hkLowest]
  · simp [patDistinct, hkUnique, hkDistinct]
  · unfold patGreater
    have hcond : (strIncludes (toLowerCase q) "greater than" ||
        strIncludes (toLowerCase q) ">" || strIncludes (toLowerCase q) "more than") = true := by
      rcases htrig with h | h | h <;> simp [h]
    rw [if_pos hcond, hcol, hnum]
    simp [truthy, hcne, hnz]

/-- C7 witness: the amended theorem applied at the claim's own scenario —
schema `["Price"]`, question `"find records where Price > 100"` — yielding
`SELECT * FROM user_data WHERE "Price" > 100 ORDER BY "Price" DESC`. -/
theorem claim7_greater_than_witness :
    generateSQLWithPatterns ["Price"] "find records where Price > 100" =
      greaterSQL "Price" 100 ∧
    greaterSQL "Price" 100 =
      "SELECT * FROM user_data WHERE \"Price\" > 100 ORDER BY \"Price\" DESC" :=
  ⟨claim7_greater_than_amended ["Price"] "find records where Price > 100" "Price" 100
    (by decide) (by decide) (by decide) (by decide) (by decide) (by decide) (by decide)
    (by decide) (by decide) (by decide) (by decide) (by decide) (by decide) (by decide)
    (by decide) (by decide) (by decide) (by decide) (by decide) (by decide)
    (Or.inr (Or.inl (by decide))) (by decide) (by decide) (by decide) (by decide),
   by decide⟩

/-- C10: even for the empty schema (zero columns) the synthesizer is total
for every question: the resolver yields no column, every column-requiring
pattern is skipped, and the result is one of the column-free shapes —
the total-rows count, a LIMIT-n sample, `SELECT *`, or the default
statement. -/
theorem claim10_empty_schema_safe (q : String) :
    findColumnInQuestion [] q = none ∧
    (generateSQLWithPatterns [] q = totalRowsSQL ∨
      (∃ n, generateSQLWithPatterns [] q = limitSQL n) ∨
      generateSQLWithPatterns [] q = selectAllSQL ∨
      generateSQLWithPatterns [] q = defaultSQL) := by
  have hfcl : findColumnInQuestion [] (toLowerCase q) = none := rfl
  refine ⟨rfl, ?_⟩
  have pc : patChart [] (toLowerCase q) = none := by simp [patChart, hfcl, truthy]
  have psc : patShowChart [] (toLowerCase q) = none := by simp [patShowChart, hfcl, truthy]
  have psb : patShowBy [] (toLowerCase q) = none := by simp [patShowBy, hfcl, truthy]
  have p4 : patAverage [] (toLowerCase q) = none := by simp [patAverage, hfcl, truthy]
  have p5 : patSum [] (toLowerCase q) = none := by simp [patSum, hfcl, truthy]
  have p6 : patMax [] (toLowerCase q) = none := by simp [patMax, hfcl, truthy]
  have p7 : patMin [] (toLowerCase q) = none := by simp [patMin, hfcl, truthy]
  have p8 : patDistinct [] (toLowerCase q) = none := by simp [patDistinct, hfcl, truthy]
  have p9 : patGreater [] (toLowerCase q) = none := by simp [patGreater, hfcl, truthy]
  have p10 : patLess [] (toLowerCase q) = none := by simp [patLess, hfcl, truthy]
  have p11 : patSort [] (toLowerCase q) = none := by simp [patSort, hfcl, truthy]
  have p12 : patSearch [] (toLowerCase q) = none := by simp [patSearch, hfcl, truthy]
  have p13 : patBy [] (toLowerCase q) = none := by simp [patBy, hfcl, truthy]
  have p2 : patShow [] (toLowerCase q) =
      if strIncludes (toLowerCase q) "show" || strIncludes (toLowerCase q) "display" ||
          strIncludes (toLowerCase q) "view" then
        patShowTop (toLowerCase q) <|> patShowAll (toLowerCase q)
      else none := by
    unfold patShow
    rw [psc, Option.none_orElse, psb, Option.none_orElse]
  have p3 : patCount [] (toLowerCase q) =
      if strIncludes (toLowerCase q) "count" then some totalRowsSQL else none := by
    unfold patCount
    rw [hfcl]
    simp [truthy]
  rw [generateSQLWithPatterns_def, pc, Option.none_orElse, p2]
  by_cases hshow : (strIncludes (toLowerCase q) "show" ||
      strIncludes (toLowerCase q) "display" || strIncludes (toLowerCase q) "view") = true
  · rw [if_pos hshow]
    cases e3 : patShowTop (toLowerCase q) with
    | some t =>
      rw [Option.some_orElse, Option.some_orElse]
      obtain ⟨n, rfl⟩ := patShowTop_shape e3
      exact Or.inr (Or.inl ⟨n, rfl⟩)
    | none =>
      rw [Option.none_orElse]
      cases e4 : patShowAll (toLowerCase q) with
      | some t =>
        rw [Option.some_orElse]
        rw [patShowAll_shape e4]
        exact Or.inr (Or.inr (Or.inl rfl))
      | none =>
        rw [Option.none_orElse, p3]
        by_cases hcount : strIncludes (toLowerCase q) "count" = true
        · rw [if_pos hcount, Option.some_orElse]
          exact Or.inl rfl
        · rw [if_neg hcount, Option.none_orElse, p4, Option.none_orElse, p5,
            Option.none_orElse, p6, Option.none_orElse, p7, Option.none_orElse, p8,
            Option.none_orElse, p9, Option.none_orElse, p10, Option.none_orElse, p11,
            Option.none_orElse, p12, Option.none_orElse, p13]
          exact Or.inr (Or.inr (Or.inr rfl))
  · rw [if_neg hshow, Option.none_orElse, p3]
    by_cases hcount : strIncludes (toLowerCase q) "count" = true
    · rw [if_pos hcount, Option.some_orElse]
      exact Or.inl rfl
    · rw [if_neg hcount, Option.none_orElse, p4, Option.none_orElse, p5,
        Option.none_orElse, p6, Option.none_orElse, p7, Option.none_orElse, p8,
        Option.none_orElse, p9, Option.none_orElse, p10, Option.none_orElse, p11,
        Option.none_orElse, p12, Option.none_orElse, p13]
      exact Or.inr (Or.inr (Or.inr rfl))

/-- C3: for every non-empty schema and every question, the resolver
`findColumnInQuestion` returns a member of the schema; whenever some
column's lower-cased name occurs as a substring of the lower-cased
question, it returns the FIRST such column in schema order; and when no
column name occurs, it falls through to the synonym heuristics, then the
categorical fallback, then the first column. -/
theorem claim3_resolver_total_first_match (S : List String) (q : String) (hS : S ≠ []) :
    (∃ c, findColumnInQuestion S q = some c ∧ c ∈ S) ∧
    (∀ l₁ c l₂, S = l₁ ++ c :: l₂ →
      strIncludes (toLowerCase q) (toLowerCase c) = true →
      (∀ d ∈ l₁, strIncludes (toLowerCase q) (toLowerCase d) = false) →
      findColumnInQuestion S q = some c) ∧
    ((∀ c ∈ S, strIncludes (toLowerCase q) (toLowerCase c) = false) →
      findColumnInQuestion S q =
        match S.find? (fun col => synonymCondition (toLowerCase q) (toLowerCase col)) with
        | some col => some col
        | none =>
          match S.find? (fun col => categoricalCondition (toLowerCase col)) with
          | some col => some col
          | none => S.head?) := by
  refine ⟨?_, ?_, ?_⟩
  · obtain ⟨c, hc⟩ := findColumnInQuestion_total q hS
    exact ⟨c, hc, findColumnInQuestion_mem hc⟩
  · intro l₁ c l₂ hdecomp hc hpre
    rw [findColumnInQuestion_def]
    have hstep : exactMatchStep S (toLowerCase q) = some c := by
      unfold exactMatchStep
      rw [hdecomp]
      exact find?_append_cons l₂ hpre hc
    rw [hstep]
  · intro hall
    rw [findColumnInQuestion_def]
    have hstep : exactMatchStep S (toLowerCase q) = none := by
      unfold exactMatchStep
      exact List.find?_eq_none.mpr (fun x hx => by simp [hall x hx])
    rw [hstep]

/-- C3 witness: the theorem applied at the schema
`["Software", "Category", "Installs"]` and the question
`"chart by category"`. -/
theorem claim3_resolver_witness :
    ∃ c, findColumnInQuestion ["Software", "Category", "Installs"]
        "chart by category" = some c ∧ c ∈ ["Software", "Category", "Installs"] :=
  (claim3_resolver_total_first_match ["Software", "Category", "Installs"]
    "chart by category" (by decide)).1

/-- C5 counterexample: the claim fails as stated — the spec-side
definition `findSecondColumnSpec` (exact substring step, then the synonym
step, over the schema minus the excluded column) resolves `"Category"`
from the question `"average sales by type"` via the type↔category synonym
pair, but the source's `findSecondColumnInQuestion` has no synonym step
and returns none. -/
theorem claim5_second_resolver_counterexample :
    findSecondColumnInQuestion ["Sales", "Category"] "average sales by type" "Sales" =
      none ∧
    findSecondColumnSpec ["Sales", "Category"] "average sales by type" "Sales" =
      some "Category" := by
  refine ⟨by decide, by decide⟩

/-- C5 (amended): `findSecondColumnInQuestion` applies ONLY the exact
substring step of the resolver, over the schema with the excluded column
removed — no synonym step and no fallback: any result is a schema member
different from the excluded column, and when no remaining column's
lower-cased name occurs in the question it returns none. -/
theorem claim5_second_resolver_amended (S : List String) (q c : String) :
    findSecondColumnInQuestion S q c =
      exactMatchStep (S.filter (fun col => col ≠ c)) (toLowerCase q) ∧
    (∀ g, findSecondColumnInQuestion S q c = some g → g ∈ S ∧ g ≠ c) ∧
    ((∀ g ∈ S.filter (fun col => col ≠ c),
        strIncludes (toLowerCase q) (toLowerCase g) = false) →
      findSecondColumnInQuestion S q c = none) := by
  refine ⟨rfl, fun g h => findSecondColumnInQuestion_mem h, fun hall => ?_⟩
  unfold findSecondColumnInQuestion
  exact List.find?_eq_none.mpr (fun x hx => by simp [hall x hx])

theorem dropWhile_head_not {α : Type} {p : α → Bool} {l : List α} {d : α} {b : List α}
    (h : l.dropWhile p = d :: b) : p d = false := by
  induction l with
  | nil => exact absurd h (by simp)
  | cons a as ih =>
    rw [List.dropWhile_cons] at h
    by_cases hp : p a = true
    · rw [if_pos hp] at h
      exact ih h
    · rw [if_neg hp] at h
      cases h
      simpa using hp

theorem quoteRun_decomp (v b : List Char) (q2 : Char)
    (hv : ∀ c ∈ v, quoteChar c = false) (hq2 : quoteChar q2 = true) :
    (v ++ q2 :: b).takeWhile (fun d => !quoteChar d) = v ∧
    (v ++ q2 :: b).dropWhile (fun d => !quoteChar d) = q2 :: b := by
  induction v with
  | nil =>
    simp [List.takeWhile_cons, List.dropWhile_cons, hq2]
  | cons a as ih =>
    have ha : quoteChar a = false := hv a (List.mem_cons_self a as)
    have ih' := ih (fun c hc => hv c (List.mem_cons_of_mem a hc))
    simp [List.takeWhile_cons, List.dropWhile_cons, ha, ih'.1, ih'.2]

theorem quotedScan_cons (c : Char) (rest : List Char) :
    quotedScan (c :: rest) =
      if quoteChar c then
        if (rest.takeWhile (fun d => !quoteChar d)).isEmpty then quotedScan rest
        else if (rest.dropWhile (fun d => !quoteChar d)).isEmpty then quotedScan rest
        else some (rest.takeWhile (fun d => !quoteChar d))
      else quotedScan rest := rfl

theorem quotedAt_shift {c : Char} {rest v : List Char} {i : Nat} :
    QuotedAt (c :: rest) (i + 1) v ↔ QuotedAt rest i v := by
  unfold QuotedAt
  rw [List.drop_succ_cons]

theorem quotedAt_zero_elim {c : Char} {rest v : List Char} (h : QuotedAt (c :: rest) 0 v) :
    quoteChar c = true ∧ v = rest.takeWhile (fun d => !quoteChar d) ∧
    rest.dropWhile (fun d => !quoteChar d) ≠ [] := by
  obtain ⟨hvne, hvq, q1, q2, b, hq1, hq2, hdecomp⟩ := h
  rw [List.drop_zero] at hdecomp
  injection hdecomp with h1 h2
  subst h1
  have hr := quoteRun_decomp v b q2 hvq hq2
  rw [h2]
  exact ⟨hq1, hr.1.symm, by rw [hr.2]; simp⟩

theorem quotedAt_zero_intro {c : Char} {rest : List Char} (hq : quoteChar c = true)
    (hrun : rest.takeWhile (fun d => !quoteChar d) ≠ [])
    (hdrop : rest.dropWhile (fun d => !quoteChar d) ≠ []) :
    QuotedAt (c :: rest) 0 (rest.takeWhile (fun d => !quoteChar d)) := by
  obtain ⟨d, b, hdb⟩ : ∃ d b, rest.dropWhile (fun d => !quoteChar d) = d :: b := by
    cases hI : rest.dropWhile (fun d => !quoteChar d) with
    | nil => exact absurd hI hdrop
    | cons d b => exact ⟨d, b, rfl⟩
  have hd : quoteChar d = true := by
    have := dropWhile_head_not hdb
    simpa using this
  refine ⟨hrun, ?_, c, d, b, hq, hd, ?_⟩
  · intro x hx
    have := List.mem_takeWhile_imp hx
    simpa using this
  · rw [List.drop_zero, ← hdb, List.takeWhile_append_dropWhile]

theorem quotedAt_nil {i : Nat} {v : List Char} : ¬ QuotedAt [] i v := by
  intro h
  obtain ⟨_, _, q1, q2, b, _, _, hd⟩ := h
  rw [List.drop_nil] at hd
  exact List.noConfusion hd

theorem quotedScan_none_iff (l : List Char) :
    quotedScan l = none ↔ ∀ i v, ¬ QuotedAt l i v := by
  induction l with
  | nil =>
    constructor
    · intro _ i v
      exact quotedAt_nil
    · intro _
      rfl
  | cons c rest ih =>
    rw [quotedScan_cons]
    by_cases hq : quoteChar c = true
    · rw [if_pos hq]
      by_cases hrun : (rest.takeWhile (fun d => !quoteChar d)).isEmpty = true
      · rw [if_pos hrun]
        rw [ih]
        constructor
        · intro h i v hQ
          cases i with
          | zero =>
            have he := quotedAt_zero_elim hQ
            have : v = [] := by
              rw [he.2.1]
              exact List.isEmpty_iff.mp hrun
            exact absurd this hQ.1
          | succ j => exact h j v (quotedAt_shift.mp hQ)
        · intro h i v hQ
          exact h (i + 1) v (quotedAt_shift.mpr hQ)
      · rw [if_neg hrun]
        by_cases hdrop : (rest.dropWhile (fun d => !quoteChar d)).isEmpty = true
        · rw [if_pos hdrop]
          rw [ih]
          constructor
          · intro h i v hQ
            cases i with
            | zero =>
              have he := quotedAt_zero_elim hQ
              exact absurd (List.isEmpty_iff.mp hdrop) he.2.2
            | succ j => exact h j v (quotedAt_shift.mp hQ)
          · intro h i v hQ
            exact h (i + 1) v (quotedAt_shift.mpr hQ)
        · rw [if_neg hdrop]
          constructor
          · intro h
            exact Option.noConfusion h
          · intro h
            have hQ := quotedAt_zero_intro hq
              (fun he => hrun (by rw [he]; rfl)) (fun he => hdrop (by rw [he]; rfl))
            exact absurd hQ (h 0 _)
    · rw [if_neg hq]
      rw [ih]
      constructor
      · intro h i v hQ
        cases i with
        | zero =>
          have he := quotedAt_zero_elim hQ
          exact absurd he.1 hq
        | succ j => exact h j v (quotedAt_shift.mp hQ)
      · intro h i v hQ
        exact h (i + 1) v (quotedAt_shift.mpr hQ)

theorem quotedScan_some_first {l v : List Char} (h : quotedScan l = some v) :
    ∃ i, QuotedAt l i v ∧ ∀ j, j < i → ∀ w, ¬ QuotedAt l j w := by
  induction l with
  | nil => exact absurd h (by simp [quotedScan])
  | cons c rest ih =>
    rw [quotedScan_cons] at h
    by_cases hq : quoteChar c = true
    · rw [if_pos hq] at h
      by_cases hrun : (rest.takeWhile (fun d => !quoteChar d)).isEmpty = true
      · rw [if_pos hrun] at h
        obtain ⟨i, hQ, hmin⟩ := ih h
        refine ⟨i + 1, quotedAt_shift.mpr hQ, ?_⟩
        intro j hj w hw
        cases j with
        | zero =>
          have he := quotedAt_zero_elim hw
          have : w = [] := by
            rw [he.2.1]
            exact List.isEmpty_iff.mp hrun
          exact absurd this hw.1
        | succ j' => exact hmin j' (by omega) w (quotedAt_shift.mp hw)
      · rw [if_neg hrun] at h
        by_cases hdrop : (rest.dropWhile (fun d => !quoteChar d)).isEmpty = true
        · rw [if_pos hdrop] at h
          obtain ⟨i, hQ, hmin⟩ := ih h
          refine ⟨i + 1, quotedAt_shift.mpr hQ, ?_⟩
          intro j hj w hw
          cases j with
          | zero =>
            have he := quotedAt_zero_elim hw
            exact absurd (List.isEmpty_iff.mp hdrop) he.2.2
          | succ j' => exact hmin j' (by omega) w (quotedAt_shift.mp hw)
        · rw [if_neg hdrop] at h
          cases h
          refine ⟨0, ?_, ?_⟩
          · exact quotedAt_zero_intro hq
              (fun he => hrun (by rw [he]; rfl)) (fun he => hdrop (by rw [he]; rfl))
          · intro j hj w
            exact absurd hj (Nat.not_lt_zero j)
    · rw [if_neg hq] at h
      obtain ⟨i, hQ, hmin⟩ := ih h
      refine ⟨i + 1, quotedAt_shift.mpr hQ, ?_⟩
      intro j hj w hw
      cases j with
      | zero =>
        have he := quotedAt_zero_elim hw
        exact absurd he.1 hq
      | succ j' => exact hmin j' (by omega) w (quotedAt_shift.mp hw)

/-- C6 counterexample: the claim fails as stated — on `"say \"hi' there"`
the source regex `["']([^"']+)["']` accepts the MISMATCHED pair `"hi'` and
`extractQuotedValue` returns `hi`, while the text holds exactly one double
quote and one single quote, so no substring is enclosed in matching quotes
and the claim-side definition `extractQuotedValueMatching` returns none. -/
theorem claim6_quoted_value_counterexample :
    extractQuotedValue "say \"hi' there" = some "hi" ∧
    extractQuotedValueMatching "say \"hi' there" = none ∧
    ("say \"hi' there".data).count (Char.ofNat 34) = 1 ∧
    ("say \"hi' there".data).count (Char.ofNat 39) = 1 := by
  refine ⟨by decide, by decide, by decide, by decide⟩

/-- C6 (amended): `extractQuotedValue` is total and returns the capture of
the leftmost match of the source regex: the first position of the text
holding a quote character followed by a nonempty run of non-quote
characters and then a closing quote character, where the closing quote
need NOT be the same character as the opening one; it returns none exactly
when no position of the text carries such a quoted value. -/
theorem claim6_quoted_value_amended (t : String) :
    (extractQuotedValue t = none ↔ ∀ i v, ¬ QuotedAt t.data i v) ∧
    (∀ v, extractQuotedValue t = some v →
      ∃ i, QuotedAt t.data i v.data ∧ ∀ j, j < i → ∀ w, ¬ QuotedAt t.data j w) := by
  constructor
  · unfold extractQuotedValue
    rw [Option.map_eq_none']
    exact quotedScan_none_iff t.data
  · intro v hv
    unfold extractQuotedValue at hv
    rw [Option.map_eq_some'] at hv
    obtain ⟨l, hl, hv'⟩ := hv
    obtain ⟨i, hQ, hmin⟩ := quotedScan_some_first hl
    refine ⟨i, ?_, hmin⟩
    rw [← hv']
    exact hQ

/-- C8: when the parsed dataset is missing or empty, `createTableFromData`
raises the error "No data found in file" and is atomic: the guard precedes
every assignment, so the returned state is the input state — the schema
registry `currentData` and the database handle `db` are unchanged and no
table is created. -/
theorem claim8_empty_dataset_error_atomic (st : AppState) :
    createTableFromData st none = (st, some "No data found in file") ∧
    createTableFromData st (some []) = (st, some "No data found in file") ∧
    (createTableFromData st none).1.currentData = st.currentData ∧
    (createTableFromData st none).1.db = st.db ∧
    (createTableFromData st (some [])).1.currentData = st.currentData ∧
    (createTableFromData st (some [])).1.db = st.db :=
  ⟨rfl, rfl, rfl, rfl, rfl, rfl⟩

theorem determineChartType_def (results : List Row) (columns : List String) :
    determineChartType results columns =
      if results.length < 2 then none
      else if (columns.any (fun col => results.any (fun row =>
          jsIsNaN (rowGet row col) && !isJsNull (rowGet row col)))) &&
        (columns.any (fun col => results.any (fun row =>
          !jsIsNaN (rowGet row col) && !isJsNull (rowGet row col)))) then
        match columns with
        | [c0, c1] => some { type := "bar", labelColumn := c0, valueColumn := c1 }
        | _ => none
      else none := rfl

/-- C9 counterexample: the claim fails as stated — with the two columns
`a` (one string value, one numeric value) and `b` (all null), the code's
"some column non-numeric AND some column numeric" test is satisfied by
column `a` alone and a bar-chart specification is emitted, while the
claim's "one column has a non-numeric value and THE OTHER column has a
numeric value" (formalised by `ChartClaimSpec`) is false: column `b`
contributes no non-null value of either kind. -/
theorem claim9_chart_decision_counterexample :
    determineChartType
        [([("a", JValue.vstr "x"), ("b", JValue.vnull)] : Row),
         ([("a", JValue.vnum 1), ("b", JValue.vnull)] : Row)] ["a", "b"] =
      some { type := "bar", labelColumn := "a", valueColumn := "b" } ∧
    ¬ ChartClaimSpec
        [([("a", JValue.vstr "x"), ("b", JValue.vnull)] : Row),
         ([("a", JValue.vnum 1), ("b", JValue.vnull)] : Row)] ["a", "b"] := by
  constructor
  · decide
  · rintro ⟨_, c0, c1, hcols, hor⟩
    injection hcols with h1 hcols
    injection hcols with h2 hcols
    subst h1
    subst h2
    revert hor
    simp only [ColumnHasNonNumeric, ColumnHasNumeric]
    decide

/-- C9 (amended): `determineChartType` emits the bar-chart specification
{labelColumn = first column, valueColumn = second column} exactly when the
result has at least 2 rows, exactly 2 columns, SOME column holds a
non-null non-numeric value and SOME column holds a non-null numeric value
(possibly the same column); in every other case — in particular fewer than
2 rows or a column count other than 2 — it emits no chart. -/
theorem claim9_chart_decision_amended (results : List Row) (columns : List String) :
    (∀ cfg, determineChartType results columns = some cfg ↔
      (2 ≤ results.length ∧
        ∃ c0 c1, columns = [c0, c1] ∧
          cfg = { type := "bar", labelColumn := c0, valueColumn := c1 } ∧
          (∃ col ∈ columns, ∃ row ∈ results,
            jsIsNaN (rowGet row col) = true ∧ isJsNull (rowGet row col) = false) ∧
          (∃ col ∈ columns, ∃ row ∈ results,
            jsIsNaN (rowGet row col) = false ∧ isJsNull (rowGet row col) = false))) ∧
    (results.length < 2 → determineChartType results columns = none) ∧
    (columns.length ≠ 2 → determineChartType results columns = none) := by
  refine ⟨?_, ?_, ?_⟩
  · intro cfg
    rw [determineChartType_def]
    by_cases h2 : results.length < 2
    · rw [if_pos h2]
      constructor
      · intro h
        exact Option.noConfusion h
      · rintro ⟨hlen, _⟩
        omega
    · rw [if_neg h2]
      have hlen2 : 2 ≤ results.length := by omega
      by_cases hSN : ((columns.any (fun col => results.any (fun row =>
          jsIsNaN (rowGet row col) && !isJsNull (rowGet row col)))) &&
        (columns.any (fun col => results.any (fun row =>
          !jsIsNaN (rowGet row col) && !isJsNull (rowGet row col))))) = true
      · rw [if_pos hSN]
        rw [Bool.and_eq_true] at hSN
        obtain ⟨hS, hN⟩ := hSN
        have hS' : ∃ col ∈ columns, ∃ row ∈ results,
            jsIsNaN (rowGet row col) = true ∧ isJsNull (rowGet row col) = false := by
          rw [List.any_eq_true] at hS
          obtain ⟨col, hc, hinner⟩ := hS
          rw [List.any_eq_true] at hinner
          obtain ⟨row, hr, hb⟩ := hinner
          rw [Bool.and_eq_true] at hb
          exact ⟨col, hc, row, hr, hb.1, by simpa using hb.2⟩
        have hN' : ∃ col ∈ columns, ∃ row ∈ results,
            jsIsNaN (rowGet row col) = false ∧ isJsNull (rowGet row col) = false := by
          rw [List.any_eq_true] at hN
          obtain ⟨col, hc, hinner⟩ := hN
          rw [List.any_eq_true] at hinner
          obtain ⟨row, hr, hb⟩ := hinner
          rw [Bool.and_eq_true] at hb
          exact ⟨col, hc, row, hr, by simpa using hb.1, by simpa using hb.2⟩
        match columns, hS', hN' with
        | [], hS', hN' =>
          constructor
          · intro h
            exact Option.noConfusion h
          · rintro ⟨_, c0, c1, hcols, _⟩
            exact List.noConfusion hcols
        | [c], hS', hN' =>
          constructor
          · intro h
            exact Option.noConfusion h
          · rintro ⟨_, c0, c1, hcols, _⟩
            injection hcols with _ hcols
            exact List.noConfusion hcols
        | [c0, c1], hS', hN' =>
          constructor
          · intro h
            injection h with h
            exact ⟨hlen2, c0, c1, rfl, h.symm, hS', hN'⟩
          · rintro ⟨_, c0', c1', hcols, hcfg, _⟩
            injection hcols with e1 hcols
            injection hcols with e2 hcols
            subst e1
            subst e2
            rw [hcfg]
        | c0 :: c1 :: c2 :: rest, hS', hN' =>
          constructor
          · intro h
            exact Option.noConfusion h
          · rintro ⟨_, c0', c1', hcols, _⟩
            injection hcols with _ hcols
            injection hcols with _ hcols
            exact List.noConfusion hcols
      · rw [if_neg hSN]
        constructor
        · intro h
          exact Option.noConfusion h
        · rintro ⟨_, c0, c1, hcols, hcfg, hS', hN'⟩
          refine absurd ?_ hSN
          rw [Bool.and_eq_true]
          constructor
          · rw [List.any_eq_true]
            obtain ⟨col, hc, row, hr, ha, hb⟩ := hS'
            refine ⟨col, hc, ?_⟩
            rw [List.any_eq_true]
            exact ⟨row, hr, by simp [ha, hb]⟩
          · rw [List.any_eq_true]
            obtain ⟨col, hc, row, hr, ha, hb⟩ := hN'
            refine ⟨col, hc, ?_⟩
            rw [List.any_eq_true]
            exact ⟨row, hr, by simp [ha, hb]⟩
  · intro h2
    rw [determineChartType_def, if_pos h2]
  · intro hc2
    rw [determineChartType_def]
    by_cases h2 : results.length < 2
    · rw [if_pos h2]
    · rw [if_neg h2]
      by_cases hSN : ((columns.any (fun col => results.any (fun row =>
          jsIsNaN (rowGet row col) && !isJsNull (rowGet row col)))) &&
        (columns.any (fun col => results.any (fun row =>
          !jsIsNaN (rowGet row col) && !isJsNull (rowGet row col))))) = true
      · rw [if_pos hSN]
        match columns, hc2 with
        | [], _ => rfl
        | [c], _ => rfl
        | [c0, c1], hc2 => exact absurd rfl hc2
        | c0 :: c1 :: c2 :: rest, _ => rfl
      · rw [if_neg hSN]
